import Mathlib

/-!
# WaaierBot: the text-message handler

A shallow embedding of `handlers/handler.go` and theorems about it.

Conventions of the embedding.

* Go strings are Lean strings (valid UTF-8).  Byte-indexed operations of Go
  (`len`, `s[:n]`) go through `gostring.bytes`, the UTF-8 encoding.
* `time.Time` is the number of nanoseconds since 1970-01-01T00:00:00 on the wall
  clock of the one location the process runs in (a fixed offset from UTC), so
  `Before` is `<` and `Add` is `+`.  The civil calendar (`Year`, `Month`,
  `Day`, `Date`) follows the algorithms of Go's `time` package.  A second set
  of definitions (`DateIn`, `HandleTextMessageIn`, ...) takes the location,
  with its zone transitions, as a parameter; it is used where the location
  matters (the time change).
* A handler call observes one clock reading `now` (all calls of `time.Now()`
  made while one message is handled return it) and one contact store.
* `fmt.Sscanf` follows `fmt/scan.go`: for `%d` leading white space is
  skipped (a newline is an error), one sign and then decimal digits are read,
  and what follows the second number is ignored; `int` is 64 bits wide.
* Pointer state (`handler.Info`, `handler.Conn`) is passed explicitly: a
  function takes the handler value and returns the new handler value together
  with the messages handed to `Conn.Send`, in order.  A run-time panic (slice
  bounds out of range, index out of range, nil dereference) is `none`.
-/

namespace gostring

/-- The bytes of a Go string: the UTF-8 encoding of its runes. -/
def bytes (s : String) : List UInt8 :=
  s.data.flatMap String.utf8EncodeChar

/-- Go's `len(s)`: the number of bytes. -/
def len (s : String) : Nat :=
  (bytes s).length

/-- Go's `s[:n]`: the first `n` bytes; panics (`none`) when `n > len(s)`. -/
def sliceTo (s : String) (n : Nat) : Option (List UInt8) :=
  if n ≤ len s then some ((bytes s).take n) else none

/-- Go's `strings.HasPrefix(s, p)`, on bytes. -/
def HasPrefix (s p : String) : Bool :=
  (bytes p).isPrefixOf (bytes s)

end gostring

namespace strings

/-- Go's `strings.Join`. -/
def Join (elems : List String) (sep : String) : String :=
  sep.intercalate elems

end strings

namespace time

/-- Nanoseconds since 1970-01-01T00:00:00 local wall clock. -/
abbrev Time := Int

def nsPerSecond : Int := 1000000000

def secondsPerDay : Int := 86400

def nsPerDay : Int := secondsPerDay * nsPerSecond

/-- Days from 0001-01-01 to 1970-01-01 in the proleptic Gregorian calendar. -/
def unixToYear1Days : Int := 719162

def daysPer400Years : Int := 146097

def daysPer100Years : Int := 36524

def daysPer4Years : Int := 1461

/-- Go's `isLeap`. -/
def isLeap (year : Int) : Bool :=
  year % 4 == 0 && (year % 100 != 0 || year % 400 == 0)

/-- Go's `daysBefore` table: `daysBefore m` is the number of days in a non-leap
year before month `m + 1`. -/
def daysBefore (m : Int) : Int :=
  [0, 31, 59, 90, 120, 151, 181, 212, 243, 273, 304, 334, 365].getD m.toNat 0

/-- Day number of an instant, counted from 0001-01-01 (Go's `abs / secondsPerDay`,
with the epoch moved by a multiple of 400 years and floor division). -/
def absDays (t : Time) : Int :=
  t / nsPerDay + unixToYear1Days

/-- Go's `absDate` with `full = false`: the year and the zero-based day of the
year of a day number. -/
def yearDay (d0 : Int) : Int × Int :=
  let n400 := d0 / daysPer400Years
  let d1 := d0 - daysPer400Years * n400
  let n100 := d1 / daysPer100Years - d1 / daysPer100Years / 4
  let d2 := d1 - daysPer100Years * n100
  let n4 := d2 / daysPer4Years
  let d3 := d2 - daysPer4Years * n4
  let n1 := d3 / 365 - d3 / 365 / 4
  (400 * n400 + 100 * n100 + 4 * n4 + n1 + 1, d3 - 365 * n1)

/-- The second half of Go's `absDate`: month (1..12) and day of the month from
the zero-based day of the year. -/
def monthDay (leap : Bool) (yday : Int) : Int × Int :=
  if leap && yday == 31 + 29 - 1 then (2, 29)
  else
    let day := if leap && yday > 31 + 29 - 1 then yday - 1 else yday
    let month := day / 31
    let end_ := daysBefore (month + 1)
    if day ≥ end_ then (month + 2, day - end_ + 1)
    else (month + 1, day - daysBefore month + 1)

/-- Go's `absDate` with `full = true`: year, month, day. -/
def absDate (d0 : Int) : Int × Int × Int :=
  let yd := yearDay d0
  let md := monthDay (isLeap yd.1) yd.2
  (yd.1, md.1, md.2)

def Year (t : Time) : Int := (absDate (absDays t)).1

def Month (t : Time) : Int := (absDate (absDays t)).2.1

def Day (t : Time) : Int := (absDate (absDays t)).2.2

def Hour (t : Time) : Int := t % nsPerDay / (3600 * nsPerSecond)

def Minute (t : Time) : Int := t % (3600 * nsPerSecond) / (60 * nsPerSecond)

def Second (t : Time) : Int := t % (60 * nsPerSecond) / nsPerSecond

def Nanosecond (t : Time) : Int := t % nsPerSecond

/-- Go's `Weekday`: 0 is Sunday; 0001-01-01 was a Monday. -/
def Weekday (t : Time) : Int := (absDays t + 1) % 7

/-- Go's `norm`: carries `lo` into `hi` so that `0 ≤ lo < base`. -/
def norm (hi lo base : Int) : Int × Int :=
  let r1 : Int × Int :=
    if lo < 0 then
      let n := (-lo - 1) / base + 1
      (hi - n, lo + n * base)
    else (hi, lo)
  if r1.2 ≥ base then
    let n := r1.2 / base
    (r1.1 + n, r1.2 - n * base)
  else r1

/-- Days from 0001-01-01 to the first day of `year` (the year cycles of Go's
`Date`). -/
def yearStart (year : Int) : Int :=
  let y := year - 1
  let n400 := y / 400
  let y1 := y - 400 * n400
  let n100 := y1 / 100
  let y2 := y1 - 100 * n100
  let n4 := y2 / 4
  let y3 := y2 - 4 * n4
  daysPer400Years * n400 + daysPer100Years * n100 + daysPer4Years * n4 + 365 * y3

/-- The wall clock value of a date: Go's `time.Date` up to its zone
adjustment, and so `time.Date` itself in a location whose offset never changes,
counted on its wall clock (`DateIn` below adds the zone lookup). -/
def Date (year month day hour min sec nsec : Int) : Time :=
  let ym := norm year (month - 1) 12
  let year := ym.1
  let month := ym.2 + 1
  let sn := norm sec nsec 1000000000
  let ms := norm min sn.1 60
  let hm := norm hour ms.1 60
  let dh := norm day hm.1 24
  let d := yearStart year + daysBefore (month - 1)
  let d := if isLeap year && month ≥ 3 then d + 1 else d
  let d := d + (dh.1 - 1)
  let abs := d * secondsPerDay + (dh.2 * 3600 + hm.2 * 60 + ms.2)
  (abs - unixToYear1Days * secondsPerDay) * nsPerSecond + sn.2

/-- Go's `Time.Before`. -/
def Before (t u : Time) : Bool := decide (t < u)

/-- Go's `Time.Add`. -/
def Add (t : Time) (d : Int) : Time := t + d

/-- The value of `time.ParseDuration("24h")`, in nanoseconds. -/
def duration24h : Int := 24 * 3600 * nsPerSecond

def shortDayNames : List String := ["Sun", "Mon", "Tue", "Wed", "Thu", "Fri", "Sat"]

/-- Two decimal digits, zero padded (Go's `appendInt(b, x, 2)` for `0 ≤ x < 100`). -/
def twoDigits (x : Int) : String :=
  (if x < 10 then "0" else "") ++ toString x.toNat

/-- Go's `t.Format("Mon 15:04")`. -/
def FormatMon1504 (t : Time) : String :=
  shortDayNames.getD (Weekday t).toNat "" ++ " " ++ twoDigits (Hour t) ++ ":" ++
    twoDigits (Minute t)

end time

namespace fmt

/-- The table `space` of Go's `fmt/scan.go`: inclusive ranges of white space. -/
def space : List (Nat × Nat) :=
  [(0x0009, 0x000d), (0x0020, 0x0020), (0x0085, 0x0085), (0x00a0, 0x00a0), (0x1680, 0x1680),
   (0x2000, 0x200a), (0x2028, 0x2029), (0x202f, 0x202f), (0x205f, 0x205f), (0x3000, 0x3000)]

/-- The loop of Go's `isSpace` over the table. -/
def isSpaceIn : List (Nat × Nat) → Nat → Bool
  | [], _ => false
  | rng :: rest, rx =>
    if rx < rng.1 then false
    else if rx ≤ rng.2 then true
    else isSpaceIn rest rx

/-- Go's `fmt.isSpace`. -/
def isSpace (r : Char) : Bool :=
  if r.toNat ≥ 65536 then false else isSpaceIn space r.toNat

/-- Go's `(*ss).SkipSpace` for `Sscanf` (newlines are not space): the input
left after the leading white space, or `none` for the error "unexpected
newline". -/
def SkipSpace : List Char → Option (List Char)
  | [] => some []
  | r :: rs =>
    if r = '\r' ∧ rs.head? = some '\n' then SkipSpace rs
    else if r = '\n' then none
    else if !isSpace r then some (r :: rs)
    else SkipSpace rs

/-- The digits accepted by `%d`: Go's `decimalDigits` (what `getBase` returns
for the verb `d`). -/
def acceptsDigit (r : Char) : Bool :=
  "0123456789".data.contains r

/-- Go's `strconv.ParseUint(s, 10, 64)` before the range check: the value of a
non-empty string of decimal digits. -/
def parseDigits : List Char → Nat → Option Nat
  | [], acc => some acc
  | c :: cs, acc =>
    if '0' ≤ c ∧ c ≤ '9' then parseDigits cs (acc * 10 + (c.toNat - '0'.toNat))
    else none

/-- Go's `strconv.ParseInt(tok, 10, 64)`: `none` on a syntax or range error. -/
def ParseInt (tok : List Char) : Option Int :=
  let neg := tok.head? = some '-'
  let s := if tok.head? = some '+' ∨ tok.head? = some '-' then tok.tail else tok
  if s = [] then none
  else
    match parseDigits s 0 with
    | none => none
    | some un =>
      if ¬ neg ∧ un ≥ 2 ^ 63 then none
      else if neg ∧ un > 2 ^ 63 then none
      else some (if neg then -(un : Int) else (un : Int))

/-- Go's `(*ss).scanInt` for the verb `%d` into an `int` (64 bits): the value
and the input left, or `none` for a scan error. -/
def scanInt (input : List Char) : Option (Int × List Char) :=
  match SkipSpace input with
  | none => none
  | some [] => none
  | some (c :: cs) =>
    let sign := if c = '+' ∨ c = '-' then [c] else []
    let rest := if c = '+' ∨ c = '-' then cs else c :: cs
    match rest with
    | [] => none
    | d :: ds =>
      if !acceptsDigit d then none
      else
        match ParseInt (sign ++ d :: ds.takeWhile acceptsDigit) with
        | none => none
        | some i => some (i, ds.dropWhile acceptsDigit)

/-- Go's `fmt.Sscanf(text, "%d:%d", &hours, &minutes)`: `some (hours, minutes)`
when `err == nil`, `none` when the scan returns an error. -/
def Sscanf_d_colon_d (text : String) : Option (Int × Int) :=
  match scanInt text.data with
  | none => none
  | some (hours, rest) =>
    match rest with
    | [] => none
    | c :: rest =>
      if c ≠ ':' then none
      else
        match scanInt rest with
        | none => none
        | some (minutes, _) => some (hours, minutes)

end fmt

namespace whatsapp

/-- The fields of `whatsapp.MessageInfo` the handler uses; `Participant` is
`Info.Source.Participant`, a nil-able pointer to the sender's id (`Info.Source`
itself is set on every message the library delivers). -/
structure MessageInfo where
  Id : String
  RemoteJid : String
  Timestamp : Nat
  Participant : Option String
deriving DecidableEq, Repr

structure ContextInfo where
  QuotedMessageID : String
deriving DecidableEq, Repr

structure TextMessage where
  Info : MessageInfo
  Text : String
  ContextInfo : ContextInfo
deriving DecidableEq, Repr

/-- The field of `whatsapp.Contact` the handler uses. -/
structure Contact where
  Notify : String
deriving DecidableEq, Repr

/-- What the handler reads through `handler.Conn`: the map `Store.Contacts`. -/
structure Conn where
  Contacts : String → Option Contact

/-- The literal `whatsapp.TextMessage{Info: whatsapp.MessageInfo{RemoteJid: jid}, Text: text}`;
the other fields have Go's zero values. -/
def outgoing (jid text : String) : TextMessage :=
  { Info := { Id := "", RemoteJid := jid, Timestamp := 0, Participant := none },
    Text := text,
    ContextInfo := { QuotedMessageID := "" } }

end whatsapp

namespace handlers

open whatsapp

structure waaierInfo where
  Going : Bool
  Participants : List String
  Time : time.Time
  ReplyMessages : List String
deriving DecidableEq, Repr

/-- The mutable part of `WaaierHandler` (the connection is passed separately). -/
structure WaaierHandler where
  Info : Option waaierInfo
  StartTime : Nat
deriving DecidableEq, Repr

/-- New handler value and the messages sent, or `none` for a run-time panic. -/
abbrev Outcome := Option (WaaierHandler × List TextMessage)

/-- The group chat the bot is allowed to operate in. -/
def allowedJid : String := "31640115227-1597505379@g.us"

/-- The loop of `isInList`, from position `index` on. -/
def isInListFrom (index : Int) : List String → String → Int
  | [], _ => -1
  | testItem :: rest, item =>
    if testItem = item then index else isInListFrom (index + 1) rest item

def isInList (list : List String) (item : String) : Int :=
  isInListFrom 0 list item

/-- Swap the element at `index` with the last one and drop the last; `none`
when an index is out of range. -/
def removeFromList (list : List String) (index : Int) : Option (List String) :=
  if index < 0 ∨ index ≥ list.length ∨ list.length = 0 then none
  else
    let last := list.getD (list.length - 1) ""
    let atIndex := list.getD index.toNat ""
    let list1 := list.set (list.length - 1) atIndex
    let list2 := list1.set index.toNat last
    some (list2.take (list.length - 1))

def infoText (info : waaierInfo) : String :=
  "[Waaier]\n\n🕒 " ++ time.FormatMon1504 info.Time ++ "\nPeople that are going:\n" ++
    strings.Join info.Participants ", "

def displayWaaierInfo (handler : WaaierHandler) (message : TextMessage) : Outcome :=
  match handler.Info with
  | none => none
  | some info => some (handler, [outgoing message.Info.RemoteJid (infoText info)])

def addedText (info : waaierInfo) : String :=
  "[Waaier]\n\nYou are added to the list!\n\n🕒 " ++ time.FormatMon1504 info.Time ++
    "\nPeople that are going:\n" ++ strings.Join info.Participants ", "

def addParticipant (conn : Conn) (handler : WaaierHandler) (message : TextMessage)
    (autoReply : Bool) : Outcome :=
  match message.Info.Participant with
  | none => some (handler, [])
  | some sender =>
    match conn.Contacts sender with
    | none => some (handler, [])
    | some contact =>
      match handler.Info with
      | none => none
      | some info =>
        if isInList info.Participants contact.Notify > -1 then some (handler, [])
        else
          let info1 := { info with Participants := info.Participants ++ [contact.Notify] }
          let handler1 := { handler with Info := some info1 }
          if autoReply then
            some (handler1, [outgoing message.Info.RemoteJid (addedText info1)])
          else some (handler1, [])

def createdText (info : waaierInfo) : String :=
  "[Waaier]\n\nA new Waaier event is created for " ++ time.FormatMon1504 info.Time ++ "."

def createWaaierEvent (now : time.Time) (conn : Conn) (handler : WaaierHandler)
    (message : TextMessage) : Outcome :=
  let info0 : waaierInfo :=
    { Going := true,
      Participants := [],
      Time := time.Date (time.Year now) (time.Month now) (time.Day now) 17 45 0 0,
      ReplyMessages := [message.Info.Id] }
  let info1 :=
    if time.Before info0.Time now then
      { info0 with Time := time.Add info0.Time time.duration24h }
    else info0
  match addParticipant conn { handler with Info := some info1 } message false with
  | none => none
  | some (handler2, sent) =>
    match handler2.Info with
    | none => none
    | some info2 => some (handler2, sent ++ [outgoing message.Info.RemoteJid (createdText info2)])

def cancelledText : String :=
  "[Waaier]\n\nNobody is going.\n🦀 Waaier is cancelled. 🦀"

def removedText (info : waaierInfo) : String :=
  "[Waaier]\n\nYou are removed from the list!\n\n🕒 " ++ time.FormatMon1504 info.Time ++
    "\nPeople that are going:\n" ++ strings.Join info.Participants ", "

def removeParticipant (conn : Conn) (handler : WaaierHandler) (message : TextMessage)
    (autoReply : Bool) : Outcome :=
  match message.Info.Participant with
  | none => some (handler, [])
  | some sender =>
    match conn.Contacts sender with
    | none => some (handler, [])
    | some contact =>
      match handler.Info with
      | none => none
      | some info =>
        if isInList info.Participants contact.Notify = -1 then some (handler, [])
        else if info.Participants.length = 1 then
          let returnMessage := outgoing message.Info.RemoteJid cancelledText
          some ({ handler with Info := none }, if autoReply then [returnMessage] else [])
        else
          match removeFromList info.Participants (isInList info.Participants contact.Notify) with
          | none => none
          | some list =>
            let info1 := { info with Participants := list }
            let returnMessage := outgoing message.Info.RemoteJid (removedText info1)
            some ({ handler with Info := some info1 }, if autoReply then [returnMessage] else [])

def timeUpdatedText (info : waaierInfo) : String :=
  "[Waaier]\n\nTime is updated to " ++ time.FormatMon1504 info.Time ++ "."

def changeWaaierTime (handler : WaaierHandler) (message : TextMessage) : Outcome :=
  match fmt.Sscanf_d_colon_d message.Text with
  | none => some (handler, [])
  | some (hours, minutes) =>
    if hours > 23 ∨ hours < 0 ∨ minutes > 59 ∨ minutes < 0 then some (handler, [])
    else
      match handler.Info with
      | none => none
      | some info =>
        let info1 :=
          { info with
            Time := time.Date (time.Year info.Time) (time.Month info.Time) (time.Day info.Time)
              hours minutes 0 0 }
        some ({ handler with Info := some info1 },
          [outgoing message.Info.RemoteJid (timeUpdatedText info1)])

/-- The commands of `HandleTextMessage` (the `if`/`else if` chain on the
prefix of the text), run on a reply to an acknowledged message. -/
def commands (conn : Conn) (handler : WaaierHandler) (message : TextMessage) : Outcome :=
  match gostring.sliceTo message.Text 2 with
  | none => none
  | some two =>
    if two = gostring.bytes "+1" then addParticipant conn handler message true
    else if two = gostring.bytes "-1" then removeParticipant conn handler message true
    else
      match gostring.sliceTo message.Text 1 with
      | none => none
      | some one =>
        if one = gostring.bytes "?" then displayWaaierInfo handler message
        else changeWaaierTime handler message

/-- The part of `HandleTextMessage` after the expiry check: answer a second
request, then run the commands when the message replies to an acknowledged
message. -/
def respond (conn : Conn) (handler : WaaierHandler) (info : waaierInfo)
    (message : TextMessage) : Outcome :=
  let first : Outcome :=
    if message.Text = "_?_" then
      displayWaaierInfo
        { handler with
          Info := some { info with ReplyMessages := info.ReplyMessages ++ [message.Info.Id] } }
        message
    else some (handler, [])
  match first with
  | none => none
  | some (handler1, sent1) =>
    match handler1.Info with
    | none => none
    | some info1 =>
      if isInList info1.ReplyMessages message.ContextInfo.QuotedMessageID = -1 then
        some (handler1, sent1)
      else
        match commands conn handler1 message with
        | none => none
        | some (handler2, sent2) => some (handler2, sent1 ++ sent2)

def HandleTextMessage (now : time.Time) (conn : Conn) (handler : WaaierHandler)
    (message : TextMessage) : Outcome :=
  if message.Info.Timestamp < handler.StartTime then some (handler, [])
  else if message.Info.RemoteJid ≠ allowedJid then some (handler, [])
  else if handler.Info.isNone ∧ message.Text = "_?_" then
    createWaaierEvent now conn handler message
  else
    match handler.Info with
    | none => some (handler, [])
    | some info =>
      if time.Before info.Time now then some ({ handler with Info := none }, [])
      else respond conn handler info message

end handlers

/-!
## The handler in a location with zone transitions

The definitions above fix the location to one whose offset from UTC never
changes, and count a `time.Time` on its wall clock.  The code runs in
`time.Local`, which may have zone transitions.  The definitions below repeat
the handler with the location as a parameter: a `time.Time` is then the UTC
instant in nanoseconds since 1970-01-01T00:00:00Z, the civil fields of an
instant are read on the wall clock that the zone lookup of the location gives,
and `time.Date` ends with Go's adjustment by the zone offset.  The zone data of
a location (Go's `(*Location).lookup`) is a parameter.
-/

namespace time

/-- The zone that Go's `(*Location).lookup` reports for an instant: its offset
in seconds east of UTC and the Unix seconds between which it is in force
(`stop` is Go's `end`). -/
structure zoneSpan where
  offset : Int
  start : Int
  stop : Int
deriving DecidableEq, Repr

/-- A location, given by its zone lookup on Unix seconds. -/
structure Location where
  lookup : Int → zoneSpan

/-- The location UTC: offset zero at every instant. -/
def UTC : Location :=
  { lookup := fun _ => { offset := 0, start := -(2 ^ 63), stop := 2 ^ 63 - 1 } }

/-- Go's `Time.abs`, in nanoseconds: the wall clock reading of the instant `t`
in the location. -/
def wall (loc : Location) (t : Time) : Time :=
  t + (loc.lookup (t / nsPerSecond)).offset * nsPerSecond

def YearIn (loc : Location) (t : Time) : Int := Year (wall loc t)

def MonthIn (loc : Location) (t : Time) : Int := Month (wall loc t)

def DayIn (loc : Location) (t : Time) : Int := Day (wall loc t)

/-- Go's `time.Date` with its location argument: the wall clock value of the
date (`Date` above), moved to UTC by the offset of the zone found for it.  The
choice of the offset next to a transition is that of the Go releases of 2020
(`lookup(start - 1)` or `lookup(end)`; later releases look up the moved value
instead). -/
def DateIn (loc : Location) (year month day hour min sec nsec : Int) : Time :=
  let w := Date year month day hour min sec nsec
  let unix := w / nsPerSecond
  let z := loc.lookup unix
  let offset :=
    if z.offset ≠ 0 then
      if unix - z.offset < z.start then (loc.lookup (z.start - 1)).offset
      else if unix - z.offset ≥ z.stop then (loc.lookup z.stop).offset
      else z.offset
    else z.offset
  w - offset * nsPerSecond

/-- Go's `t.Format("Mon 15:04")` for an instant in the location. -/
def FormatMon1504In (loc : Location) (t : Time) : String :=
  FormatMon1504 (wall loc t)

end time

namespace handlers

open whatsapp

def infoTextIn (loc : time.Location) (info : waaierInfo) : String :=
  "[Waaier]\n\n🕒 " ++ time.FormatMon1504In loc info.Time ++ "\nPeople that are going:\n" ++
    strings.Join info.Participants ", "

def displayWaaierInfoIn (loc : time.Location) (handler : WaaierHandler)
    (message : TextMessage) : Outcome :=
  match handler.Info with
  | none => none
  | some info => some (handler, [outgoing message.Info.RemoteJid (infoTextIn loc info)])

def addedTextIn (loc : time.Location) (info : waaierInfo) : String :=
  "[Waaier]\n\nYou are added to the list!\n\n🕒 " ++ time.FormatMon1504In loc info.Time ++
    "\nPeople that are going:\n" ++ strings.Join info.Participants ", "

def addParticipantIn (loc : time.Location) (conn : Conn) (handler : WaaierHandler)
    (message : TextMessage) (autoReply : Bool) : Outcome :=
  match message.Info.Participant with
  | none => some (handler, [])
  | some sender =>
    match conn.Contacts sender with
    | none => some (handler, [])
    | some contact =>
      match handler.Info with
      | none => none
      | some info =>
        if isInList info.Participants contact.Notify > -1 then some (handler, [])
        else
          let info1 := { info with Participants := info.Participants ++ [contact.Notify] }
          let handler1 := { handler with Info := some info1 }
          if autoReply then
            some (handler1, [outgoing message.Info.RemoteJid (addedTextIn loc info1)])
          else some (handler1, [])

def createdTextIn (loc : time.Location) (info : waaierInfo) : String :=
  "[Waaier]\n\nA new Waaier event is created for " ++ time.FormatMon1504In loc info.Time ++ "."

def createWaaierEventIn (loc : time.Location) (now : time.Time) (conn : Conn)
    (handler : WaaierHandler) (message : TextMessage) : Outcome :=
  let info0 : waaierInfo :=
    { Going := true,
      Participants := [],
      Time := time.DateIn loc (time.YearIn loc now) (time.MonthIn loc now) (time.DayIn loc now)
        17 45 0 0,
      ReplyMessages := [message.Info.Id] }
  let info1 :=
    if time.Before info0.Time now then
      { info0 with Time := time.Add info0.Time time.duration24h }
    else info0
  match addParticipantIn loc conn { handler with Info := some info1 } message false with
  | none => none
  | some (handler2, sent) =>
    match handler2.Info with
    | none => none
    | some info2 =>
      some (handler2, sent ++ [outgoing message.Info.RemoteJid (createdTextIn loc info2)])

def removedTextIn (loc : time.Location) (info : waaierInfo) : String :=
  "[Waaier]\n\nYou are removed from the list!\n\n🕒 " ++ time.FormatMon1504In loc info.Time ++
    "\nPeople that are going:\n" ++ strings.Join info.Participants ", "

def removeParticipantIn (loc : time.Location) (conn : Conn) (handler : WaaierHandler)
    (message : TextMessage) (autoReply : Bool) : Outcome :=
  match message.Info.Participant with
  | none => some (handler, [])
  | some sender =>
    match conn.Contacts sender with
    | none => some (handler, [])
    | some contact =>
      match handler.Info with
      | none => none
      | some info =>
        if isInList info.Participants contact.Notify = -1 then some (handler, [])
        else if info.Participants.length = 1 then
          let returnMessage := outgoing message.Info.RemoteJid cancelledText
          some ({ handler with Info := none }, if autoReply then [returnMessage] else [])
        else
          match removeFromList info.Participants (isInList info.Participants contact.Notify) with
          | none => none
          | some list =>
            let info1 := { info with Participants := list }
            let returnMessage := outgoing message.Info.RemoteJid (removedTextIn loc info1)
            some ({ handler with Info := some info1 }, if autoReply then [returnMessage] else [])

def timeUpdatedTextIn (loc : time.Location) (info : waaierInfo) : String :=
  "[Waaier]\n\nTime is updated to " ++ time.FormatMon1504In loc info.Time ++ "."

def changeWaaierTimeIn (loc : time.Location) (handler : WaaierHandler)
    (message : TextMessage) : Outcome :=
  match fmt.Sscanf_d_colon_d message.Text with
  | none => some (handler, [])
  | some (hours, minutes) =>
    if hours > 23 ∨ hours < 0 ∨ minutes > 59 ∨ minutes < 0 then some (handler, [])
    else
      match handler.Info with
      | none => none
      | some info =>
        let info1 :=
          { info with
            Time := time.DateIn loc (time.YearIn loc info.Time) (time.MonthIn loc info.Time)
              (time.DayIn loc info.Time) hours minutes 0 0 }
        some ({ handler with Info := some info1 },
          [outgoing message.Info.RemoteJid (timeUpdatedTextIn loc info1)])

def commandsIn (loc : time.Location) (conn : Conn) (handler : WaaierHandler)
    (message : TextMessage) : Outcome :=
  match gostring.sliceTo message.Text 2 with
  | none => none
  | some two =>
    if two = gostring.bytes "+1" then addParticipantIn loc conn handler message true
    else if two = gostring.bytes "-1" then removeParticipantIn loc conn handler message true
    else
      match gostring.sliceTo message.Text 1 with
      | none => none
      | some one =>
        if one = gostring.bytes "?" then displayWaaierInfoIn loc handler message
        else changeWaaierTimeIn loc handler message

def respondIn (loc : time.Location) (conn : Conn) (handler : WaaierHandler)
    (info : waaierInfo) (message : TextMessage) : Outcome :=
  let first : Outcome :=
    if message.Text = "_?_" then
      displayWaaierInfoIn loc
        { handler with
          Info := some { info with ReplyMessages := info.ReplyMessages ++ [message.Info.Id] } }
        message
    else some (handler, [])
  match first with
  | none => none
  | some (handler1, sent1) =>
    match handler1.Info with
    | none => none
    | some info1 =>
      if isInList info1.ReplyMessages message.ContextInfo.QuotedMessageID = -1 then
        some (handler1, sent1)
      else
        match commandsIn loc conn handler1 message with
        | none => none
        | some (handler2, sent2) => some (handler2, sent1 ++ sent2)

/-- `HandleTextMessage` in a location given by its zone lookup. -/
def HandleTextMessageIn (loc : time.Location) (now : time.Time) (conn : Conn)
    (handler : WaaierHandler) (message : TextMessage) : Outcome :=
  if message.Info.Timestamp < handler.StartTime then some (handler, [])
  else if message.Info.RemoteJid ≠ allowedJid then some (handler, [])
  else if handler.Info.isNone ∧ message.Text = "_?_" then
    createWaaierEventIn loc now conn handler message
  else
    match handler.Info with
    | none => some (handler, [])
    | some info =>
      if time.Before info.Time now then some ({ handler with Info := none }, [])
      else respondIn loc conn handler info message

end handlers

/-! ## Vocabulary of the claims -/

namespace handlers

open whatsapp

/-- The display name the sender of a message resolves to: the `Notify` field of
the contact stored under `Info.Source.Participant`, when both exist. -/
def senderName (conn : Conn) (message : TextMessage) : Option String :=
  match message.Info.Participant with
  | none => none
  | some sender =>
    match conn.Contacts sender with
    | none => none
    | some contact => some contact.Notify

/-- The instant 17:45:00 on the calendar day of `now`: the start of that day
plus 17 hours 45 minutes. -/
def at1745 (now : time.Time) : time.Time :=
  now / time.nsPerDay * time.nsPerDay + (17 * 3600 + 45 * 60) * time.nsPerSecond

/-- The default time of a new event: 17:45 today, or 24 hours later when
that is already past. -/
def defaultEventTime (now : time.Time) : time.Time :=
  if at1745 now < now then at1745 now + time.duration24h else at1745 now

/-- One inbound message together with what the handler observes while
handling it: the clock and the contact store. -/
structure Delivery where
  now : time.Time
  conn : Conn
  message : TextMessage

/-- Handle a sequence of messages in order; `none` as soon as one panics. -/
def handleAll : WaaierHandler → List Delivery → Option WaaierHandler
  | handler, [] => some handler
  | handler, d :: rest =>
    match HandleTextMessage d.now d.conn handler d.message with
    | none => none
    | some r => handleAll r.1 rest

/-- A list with the slot `i` overwritten by the last element and the last
slot dropped. -/
def swapRemove (list : List String) (i : Nat) : List String :=
  (list.set i (list.getLastD "")).dropLast

/-- The attendee invariant: when an event exists, its attendee list is not
empty and has no duplicate name. -/
def AttendeesOk (handler : WaaierHandler) : Prop :=
  ∀ info, handler.Info = some info → info.Participants ≠ [] ∧ info.Participants.Nodup

/-- The sender of every delivered message resolves to a display name. -/
def AllResolved (deliveries : List Delivery) : Prop :=
  ∀ d ∈ deliveries, (senderName d.conn d.message).isSome = true

instance decidableAllResolved (deliveries : List Delivery) :
    Decidable (AllResolved deliveries) :=
  inferInstanceAs (Decidable (∀ d ∈ deliveries, (senderName d.conn d.message).isSome = true))

/-- The wall clock value `w` is not skipped by a zone transition of the
location: the zone that the lookup finds for `w` has offset zero, or it is in
force at the instant that shows `w` in that zone. -/
def wallTimeExists (loc : time.Location) (w : time.Time) : Prop :=
  (loc.lookup (w / time.nsPerSecond)).offset = 0 ∨
  ((loc.lookup (w / time.nsPerSecond)).start
      ≤ w / time.nsPerSecond - (loc.lookup (w / time.nsPerSecond)).offset ∧
    w / time.nsPerSecond - (loc.lookup (w / time.nsPerSecond)).offset
      < (loc.lookup (w / time.nsPerSecond)).stop ∧
    (loc.lookup (w / time.nsPerSecond - (loc.lookup (w / time.nsPerSecond)).offset)).offset
      = (loc.lookup (w / time.nsPerSecond)).offset)

instance decidableWallTimeExists (loc : time.Location) (w : time.Time) :
    Decidable (wallTimeExists loc w) :=
  inferInstanceAs (Decidable (_ ∨ _))

end handlers

/-! ## Concrete data for the examples -/

namespace handlers

open whatsapp

/-- A contact store that knows Alice, Bob and Carol. -/
def exampleConn : Conn :=
  { Contacts := fun jid =>
      if jid = "31600000001@s.whatsapp.net" then some { Notify := "Alice" }
      else if jid = "31600000002@s.whatsapp.net" then some { Notify := "Bob" }
      else if jid = "31600000003@s.whatsapp.net" then some { Notify := "Carol" }
      else none }

def aliceJid : String := "31600000001@s.whatsapp.net"

def bobJid : String := "31600000002@s.whatsapp.net"

def carolJid : String := "31600000003@s.whatsapp.net"

/-- Saturday 2020-08-15, 12:00. -/
def exampleNow : time.Time := time.Date 2020 8 15 12 0 0 0

/-- Saturday 2020-08-15, 18:00: after the event time of that day. -/
def exampleLate : time.Time := time.Date 2020 8 15 18 0 0 0

/-- Saturday 2020-08-15, 17:45. -/
def exampleEventTime : time.Time := time.Date 2020 8 15 17 45 0 0

/-- A handler started at Unix time 1597500000 with no event. -/
def noEvent : WaaierHandler :=
  { Info := none, StartTime := 1597500000 }

/-- A message in the allowed group chat, sent after the start of the bot. -/
def inbound (id text quoted : String) (sender : Option String) : TextMessage :=
  { Info := { Id := id, RemoteJid := allowedJid, Timestamp := 1597505400, Participant := sender },
    Text := text,
    ContextInfo := { QuotedMessageID := quoted } }

/-- An active event at 17:45 with the given attendees, created by message `m1`. -/
def eventWith (attendees : List String) : WaaierHandler :=
  { Info := some { Going := true, Participants := attendees, Time := exampleEventTime,
                   ReplyMessages := ["m1"] },
    StartTime := 1597500000 }

/-- Alice creates an event, Bob joins, Alice leaves. -/
def exampleDeliveries : List Delivery :=
  [{ now := exampleNow, conn := exampleConn, message := inbound "m1" "_?_" "" (some aliceJid) },
   { now := exampleNow, conn := exampleConn, message := inbound "m2" "+1" "m1" (some bobJid) },
   { now := exampleNow, conn := exampleConn, message := inbound "m3" "-1" "m1" (some aliceJid) }]

/-- Alice creates an event at noon and leaves it, replying to her own message,
when the clock reads 18:00. -/
def createThenLeave : List Delivery :=
  [{ now := exampleNow, conn := exampleConn, message := inbound "m1" "_?_" "" (some aliceJid) },
   { now := exampleLate, conn := exampleConn, message := inbound "m2" "-1" "m1" (some aliceJid) }]

end handlers

/-! ## The calendar of the `time` model -/

namespace time

theorem isLeap_iff (y : Int) :
    isLeap y = true ↔ (y % 4 = 0 ∧ (y % 100 ≠ 0 ∨ y % 400 = 0)) := by
  simp [isLeap]

theorem yearStart_digits (a b c e : Int) (hb : 0 ≤ b) (hb3 : b ≤ 3) (hc : 0 ≤ c)
    (hc24 : c ≤ 24) (he : 0 ≤ e) (he3 : e ≤ 3) :
    yearStart (400 * a + 100 * b + 4 * c + e + 1)
      = 146097 * a + 36524 * b + 1461 * c + 365 * e := by
  simp only [yearStart, daysPer400Years, daysPer100Years, daysPer4Years]
  have h1 : (400 * a + 100 * b + 4 * c + e + 1 - 1) / 400 = a := by omega
  rw [h1]
  have h2 : (400 * a + 100 * b + 4 * c + e + 1 - 1 - 400 * a) / 100 = b := by omega
  rw [h2]
  have h3 : (400 * a + 100 * b + 4 * c + e + 1 - 1 - 400 * a - 100 * b) / 4 = c := by omega
  rw [h3]
  omega

theorem yearDay_digits (d0 : Int) :
    ∃ a b c e y : Int, 0 ≤ b ∧ b ≤ 3 ∧ 0 ≤ c ∧ c ≤ 24 ∧ 0 ≤ e ∧ e ≤ 3 ∧ 0 ≤ y ∧
      yearDay d0 = (400 * a + 100 * b + 4 * c + e + 1, y) ∧
      d0 = 146097 * a + 36524 * b + 1461 * c + 365 * e + y ∧
      (y ≤ 364 ∨ (y = 365 ∧ e = 3 ∧ (c ≠ 24 ∨ b = 3))) := by
  simp only [yearDay, daysPer400Years, daysPer100Years, daysPer4Years]
  refine ⟨d0 / 146097, _, _, _, _, ?_, ?_, ?_, ?_, ?_, ?_, ?_, rfl, ?_, ?_⟩ <;> omega

/-- The year and day of the year computed by `yearDay` locate the day number:
the year starts `yday` days before it, and `yday` is within the year. -/
theorem yearDay_spec (d0 : Int) :
    yearStart (yearDay d0).1 + (yearDay d0).2 = d0 ∧ 0 ≤ (yearDay d0).2 ∧
    (yearDay d0).2 < (if isLeap (yearDay d0).1 then 366 else 365) := by
  obtain ⟨a, b, c, e, y, hb, hb3, hc, hc24, he, he3, hy, hyd, hd, hlast⟩ := yearDay_digits d0
  rw [hyd]
  simp only
  rw [yearStart_digits a b c e hb hb3 hc hc24 he he3]
  refine ⟨by omega, hy, ?_⟩
  have hl := isLeap_iff (400 * a + 100 * b + 4 * c + e + 1)
  split_ifs with h
  · omega
  · rw [hl] at h
    omega

theorem daysBefore_values :
    daysBefore 0 = 0 ∧ daysBefore 1 = 31 ∧ daysBefore 2 = 59 ∧ daysBefore 3 = 90 ∧
    daysBefore 4 = 120 ∧ daysBefore 5 = 151 ∧ daysBefore 6 = 181 ∧ daysBefore 7 = 212 ∧
    daysBefore 8 = 243 ∧ daysBefore 9 = 273 ∧ daysBefore 10 = 304 ∧ daysBefore 11 = 334 ∧
    daysBefore 12 = 365 := by
  decide

/-- In a non-leap numbering (`day` already skips February 29), the month
estimate `day / 31` and its adjustment invert the table `daysBefore`. -/
theorem monthEstimate_spec (day : Int) (h0 : 0 ≤ day) (h1 : day < 365) :
    ∃ m d : Int, 1 ≤ m ∧ m ≤ 12 ∧ 1 ≤ d ∧
      (if day ≥ daysBefore (day / 31 + 1) then
          (day / 31 + 2, day - daysBefore (day / 31 + 1) + 1)
        else (day / 31 + 1, day - daysBefore (day / 31) + 1)) = (m, d) ∧
      daysBefore (m - 1) + (d - 1) = day ∧ (m ≤ 2 ↔ day < 59) := by
  obtain ⟨v0, v1, v2, v3, v4, v5, v6, v7, v8, v9, v10, v11, v12⟩ := daysBefore_values
  obtain ⟨q, hq⟩ : ∃ q : Int, q = day / 31 := ⟨_, rfl⟩
  rw [← hq]
  have hq' : q = 0 ∨ q = 1 ∨ q = 2 ∨ q = 3 ∨ q = 4 ∨ q = 5 ∨ q = 6 ∨ q = 7 ∨ q = 8 ∨ q = 9 ∨
      q = 10 ∨ q = 11 := by omega
  rcases hq' with h | h | h | h | h | h | h | h | h | h | h | h <;> subst h <;>
    norm_num only [v0, v1, v2, v3, v4, v5, v6, v7, v8, v9, v10, v11, v12] <;>
    split_ifs <;> refine ⟨_, _, ?_, ?_, ?_, rfl, ?_, ?_⟩ <;>
    norm_num only [v0, v1, v2, v3, v4, v5, v6, v7, v8, v9, v10, v11, v12] <;>
    first | omega | (simp only [true_iff, false_iff]; omega)

/-- The month and day computed by `monthDay` locate the day of the year. -/
theorem monthDay_spec (leap : Bool) (yday : Int) (h0 : 0 ≤ yday)
    (h1 : yday < (if leap then 366 else 365)) :
    1 ≤ (monthDay leap yday).1 ∧ (monthDay leap yday).1 ≤ 12 ∧ 1 ≤ (monthDay leap yday).2 ∧
    daysBefore ((monthDay leap yday).1 - 1)
      + (if leap && decide ((monthDay leap yday).1 ≥ 3) then 1 else 0)
      + ((monthDay leap yday).2 - 1) = yday := by
  obtain ⟨v0, v1, v2, v3, v4, v5, v6, v7, v8, v9, v10, v11, v12⟩ := daysBefore_values
  cases leap
  · simp only [Bool.false_eq_true, if_false] at h1
    obtain ⟨m, d, hm1, hm12, hd, heq, hsum, -⟩ := monthEstimate_spec yday h0 h1
    simp only [monthDay, Bool.false_and, Bool.false_eq_true, if_false, heq]
    omega
  · simp only [if_true] at h1
    by_cases h59 : yday = 59
    · subst h59
      simp [monthDay, v1]
    · by_cases hgt : yday > 59
      · obtain ⟨m, d, hm1, hm12, hd, heq, hsum, hm2⟩ :=
          monthEstimate_spec (yday - 1) (by omega) (by omega)
        have e1 : monthDay true yday = (m, d) := by
          rw [← heq]
          simp [monthDay, h59, hgt]
        rw [e1]
        have hm3 : m ≥ 3 := by omega
        simp only [Bool.true_and, hm3, decide_True, if_true]
        omega
      · obtain ⟨m, d, hm1, hm12, hd, heq, hsum, hm2⟩ :=
          monthEstimate_spec yday (by omega) (by omega)
        have e1 : monthDay true yday = (m, d) := by
          rw [← heq]
          simp [monthDay, h59, hgt]
        rw [e1]
        have hm3 : ¬ m ≥ 3 := by omega
        simp only [Bool.true_and, hm3, decide_False, Bool.false_eq_true, if_false]
        omega

theorem norm_inRange (hi lo base : Int) (h0 : 0 ≤ lo) (h1 : lo < base) :
    norm hi lo base = (hi, lo) := by
  have h2 : ¬ lo < 0 := by omega
  have h3 : ¬ lo ≥ base := by omega
  simp only [norm, h2, h3, if_false]

/-- The civil date of a day number determines the day number. -/
theorem absDate_inverse (d0 : Int) :
    1 ≤ (absDate d0).2.1 ∧ (absDate d0).2.1 ≤ 12 ∧
    yearStart (absDate d0).1 + daysBefore ((absDate d0).2.1 - 1)
      + (if isLeap (absDate d0).1 && decide ((absDate d0).2.1 ≥ 3) then 1 else 0)
      + ((absDate d0).2.2 - 1) = d0 := by
  obtain ⟨hy, hy0, hy1⟩ := yearDay_spec d0
  obtain ⟨hm1, hm12, -, hmd⟩ := monthDay_spec (isLeap (yearDay d0).1) (yearDay d0).2 hy0 hy1
  simp only [absDate]
  refine ⟨hm1, hm12, ?_⟩
  omega

/-- Rebuilding an instant from its own year, month and day and an in-range time
of day gives that time of day on the same day. -/
theorem Date_sameDay (t : Time) (hour min sec nsec : Int)
    (hh : 0 ≤ hour ∧ hour < 24) (hm : 0 ≤ min ∧ min < 60) (hs : 0 ≤ sec ∧ sec < 60)
    (hn : 0 ≤ nsec ∧ nsec < 1000000000) :
    Date (Year t) (Month t) (Day t) hour min sec nsec
      = t / nsPerDay * nsPerDay + ((hour * 3600 + min * 60 + sec) * nsPerSecond + nsec) := by
  obtain ⟨hm1, hm12, hinv⟩ := absDate_inverse (absDays t)
  have e1 : norm (Year t) (Month t - 1) 12 = (Year t, Month t - 1) :=
    norm_inRange _ _ _ (by simp only [Month]; omega) (by simp only [Month]; omega)
  have e2 : norm sec nsec 1000000000 = (sec, nsec) := norm_inRange _ _ _ hn.1 hn.2
  have e3 : norm min sec 60 = (min, sec) := norm_inRange _ _ _ hs.1 hs.2
  have e4 : norm hour min 60 = (hour, min) := norm_inRange _ _ _ hm.1 hm.2
  have e5 : norm (Day t) hour 24 = (Day t, hour) := norm_inRange _ _ _ hh.1 hh.2
  simp only [Date, e1, e2, e3, e4, e5]
  simp only [Year, Month, Day] at *
  simp only [sub_add_cancel]
  have key : (if (isLeap (absDate (absDays t)).1 && decide ((absDate (absDays t)).2.1 ≥ 3)) = true
        then yearStart (absDate (absDays t)).1 + daysBefore ((absDate (absDays t)).2.1 - 1) + 1
        else yearStart (absDate (absDays t)).1 + daysBefore ((absDate (absDays t)).2.1 - 1))
      + ((absDate (absDays t)).2.2 - 1) = absDays t := by
    split_ifs with hc
    · rw [if_pos hc] at hinv
      omega
    · rw [if_neg hc] at hinv
      omega
  rw [key]
  simp only [absDays, nsPerDay, secondsPerDay, nsPerSecond, unixToYear1Days]
  ring

/-- The instant `time.Date(now.Year(), now.Month(), now.Day(), 17, 45, 0, 0, loc)`. -/
theorem Date_1745 (now : Time) :
    Date (Year now) (Month now) (Day now) 17 45 0 0 = handlers.at1745 now := by
  rw [Date_sameDay now 17 45 0 0 (by omega) (by omega) (by omega) (by omega)]
  simp only [handlers.at1745, add_zero]

/-- Civil fields of an instant given as a day start plus a time of day. -/
theorem fields_of_dayStart (t : Time) (hour min : Int) (hh : 0 ≤ hour ∧ hour < 24)
    (hm : 0 ≤ min ∧ min < 60) :
    let u := t / nsPerDay * nsPerDay + (hour * 3600 + min * 60) * nsPerSecond
    Year u = Year t ∧ Month u = Month t ∧ Day u = Day t ∧ Hour u = hour ∧ Minute u = min ∧
      Second u = 0 ∧ Nanosecond u = 0 := by
  intro u
  have hd : absDays u = absDays t := by
    simp only [u, absDays, nsPerDay, secondsPerDay, nsPerSecond]
    omega
  refine ⟨by simp only [Year, hd], by simp only [Month, hd], by simp only [Day, hd],
    ?_, ?_, ?_, ?_⟩
  · simp only [u, Hour, nsPerDay, secondsPerDay, nsPerSecond]
    omega
  · simp only [u, Minute, nsPerDay, secondsPerDay, nsPerSecond]
    omega
  · simp only [u, Second, nsPerDay, secondsPerDay, nsPerSecond]
    omega
  · simp only [u, Nanosecond, nsPerDay, secondsPerDay, nsPerSecond]
    omega

end time

/-! ## The list helpers -/

namespace handlers

open whatsapp

theorem isInListFrom_eq_neg_one (list : List String) (item : String) (k : Int) (hk : 0 ≤ k) :
    isInListFrom k list item = -1 ↔ item ∉ list := by
  induction list generalizing k with
  | nil => simp [isInListFrom]
  | cons a rest ih =>
    simp only [isInListFrom]
    split_ifs with h
    · subst h
      simp only [List.mem_cons, true_or, not_true_eq_false, iff_false]
      omega
    · rw [ih (k + 1) (by omega)]
      simp only [List.mem_cons, not_or]
      constructor
      · intro hr
        exact ⟨fun e => h e.symm, hr⟩
      · intro hr
        exact hr.2

theorem isInListFrom_append (pre post : List String) (item : String) (k : Int)
    (hpre : item ∉ pre) :
    isInListFrom k (pre ++ item :: post) item = k + pre.length := by
  induction pre generalizing k with
  | nil => simp [isInListFrom]
  | cons a rest ih =>
    have ha : ¬ a = item := fun e => hpre (by simp [e])
    have hr : item ∉ rest := fun e => hpre (by simp [e])
    show isInListFrom k (a :: (rest ++ item :: post)) item = _
    rw [isInListFrom, if_neg ha, ih (k + 1) hr, List.length_cons]
    push_cast
    omega

theorem isInList_eq_neg_one (list : List String) (item : String) :
    isInList list item = -1 ↔ item ∉ list :=
  isInListFrom_eq_neg_one list item 0 (le_refl 0)

theorem isInList_append (pre post : List String) (item : String) (hpre : item ∉ pre) :
    isInList (pre ++ item :: post) item = pre.length := by
  simp only [isInList, isInListFrom_append pre post item 0 hpre, zero_add]

/-- A member of a list splits it at its first occurrence. -/
theorem split_at_first (list : List String) (item : String) (h : item ∈ list) :
    ∃ pre post, list = pre ++ item :: post ∧ item ∉ pre := by
  induction list with
  | nil => simp at h
  | cons a rest ih =>
    by_cases ha : a = item
    · exact ⟨[], rest, by simp [ha], by simp⟩
    · have hr : item ∈ rest := by
        rcases List.mem_cons.mp h with e | e
        · exact absurd e.symm ha
        · exact e
      obtain ⟨pre, post, e, hn⟩ := ih hr
      refine ⟨a :: pre, post, by simp [e], ?_⟩
      simp only [List.mem_cons, not_or]
      exact ⟨fun e => ha e.symm, hn⟩

theorem isInList_gt (list : List String) (item : String) :
    isInList list item > -1 ↔ item ∈ list := by
  constructor
  · intro h
    by_contra hn
    rw [(isInList_eq_neg_one list item).mpr hn] at h
    omega
  · intro h
    obtain ⟨pre, post, e, hn⟩ := split_at_first list item h
    rw [e, isInList_append pre post item hn]
    omega

theorem removeFromList_last (pre : List String) (x : String) :
    removeFromList (pre ++ [x]) pre.length = some pre := by
  have h1 : ¬ ((pre.length : Int) < 0 ∨ (pre.length : Int) ≥ ((pre ++ [x]).length : Nat) ∨
      (pre ++ [x]).length = 0) := by
    rintro (h | h | h)
    · omega
    · simp only [List.length_append, List.length_singleton] at h
      omega
    · simp at h
  simp only [removeFromList, h1, if_false]
  simp

theorem removeFromList_inner (pre mid : List String) (x z : String) :
    removeFromList (pre ++ x :: (mid ++ [z])) pre.length = some (pre ++ z :: mid) := by
  have h1 : ¬ ((pre.length : Int) < 0 ∨
      (pre.length : Int) ≥ ((pre ++ x :: (mid ++ [z])).length : Nat) ∨
      (pre ++ x :: (mid ++ [z])).length = 0) := by
    rintro (h | h | h)
    · omega
    · simp only [List.length_append, List.length_singleton, List.length_cons] at h
      omega
    · simp at h
  simp only [removeFromList, h1, if_false]
  have hb : pre.length + (mid.length + 1) < (pre ++ x :: (mid ++ [z])).length := by
    simp only [List.length_append, List.length_singleton, List.length_cons]
    omega
  have e1 : (pre ++ x :: (mid ++ [z]))[pre.length + (mid.length + 1)] = z := by
    rw [List.getElem_append_right (by omega)]
    simp [List.getElem_cons]
  simp only [List.length_append, List.length_cons, List.length_singleton, List.length_nil,
    Int.toNat_ofNat, List.getD_eq_getElem?_getD]
  simp
  rw [e1, List.take_append_eq_append_take]
  simp [List.take_append_eq_append_take]

end handlers

/-! ## Steps of the handler -/

namespace handlers

open whatsapp

theorem sliceTo_of_HasPrefix (s p : String) (h : gostring.HasPrefix s p = true) :
    gostring.sliceTo s (gostring.len p) = some (gostring.bytes p) := by
  simp only [gostring.HasPrefix, List.isPrefixOf_iff_prefix] at h
  obtain ⟨t, ht⟩ := h
  simp only [gostring.sliceTo, gostring.len, ← ht, List.length_append, Nat.le_add_right,
    if_true, List.take_left']

theorem trigger_no_command :
    gostring.HasPrefix "_?_" "+1" = false ∧ gostring.HasPrefix "_?_" "-1" = false := by
  decide

theorem commands_add (conn : Conn) (handler : WaaierHandler) (message : TextMessage)
    (h : gostring.HasPrefix message.Text "+1" = true) :
    commands conn handler message = addParticipant conn handler message true := by
  have h2 : gostring.sliceTo message.Text 2 = some (gostring.bytes "+1") :=
    sliceTo_of_HasPrefix message.Text "+1" h
  simp only [commands, h2, if_true]

theorem commands_remove (conn : Conn) (handler : WaaierHandler) (message : TextMessage)
    (h : gostring.HasPrefix message.Text "-1" = true) :
    commands conn handler message = removeParticipant conn handler message true := by
  have h2 : gostring.sliceTo message.Text 2 = some (gostring.bytes "-1") :=
    sliceTo_of_HasPrefix message.Text "-1" h
  have hne : ¬ gostring.bytes "-1" = gostring.bytes "+1" := by decide
  simp only [commands, h2, hne, if_false, if_true]

theorem respond_other (conn : Conn) (handler : WaaierHandler) (info : waaierInfo)
    (message : TextMessage) (hInfo : handler.Info = some info) (hText : message.Text ≠ "_?_") :
    respond conn handler info message =
      if isInList info.ReplyMessages message.ContextInfo.QuotedMessageID = -1 then
        some (handler, [])
      else commands conn handler message := by
  simp only [respond, hText, if_false, hInfo]
  split_ifs with h
  · rfl
  · cases hc : commands conn handler message with
    | none => rfl
    | some r => simp

theorem HandleTextMessage_active (now : time.Time) (conn : Conn) (handler : WaaierHandler)
    (info : waaierInfo) (message : TextMessage) (hInfo : handler.Info = some info)
    (hTs : ¬ message.Info.Timestamp < handler.StartTime)
    (hJid : message.Info.RemoteJid = allowedJid) (hFresh : ¬ info.Time < now) :
    HandleTextMessage now conn handler message = respond conn handler info message := by
  simp only [HandleTextMessage, hTs, hJid, hInfo, if_false, ne_eq, not_true_eq_false,
    Option.isNone_some, Bool.false_eq_true, false_and, time.Before, decide_eq_true_eq, hFresh]

theorem senderName_some (conn : Conn) (message : TextMessage) (n : String)
    (h : senderName conn message = some n) :
    ∃ sender contact, message.Info.Participant = some sender ∧
      conn.Contacts sender = some contact ∧ contact.Notify = n := by
  unfold senderName at h
  cases hp : message.Info.Participant with
  | none => simp [hp] at h
  | some sender =>
    cases hc : conn.Contacts sender with
    | none => simp [hp, hc] at h
    | some contact =>
      simp only [hp, hc, Option.some.injEq] at h
      exact ⟨sender, contact, rfl, hc, h⟩

theorem addParticipant_unresolved (conn : Conn) (handler : WaaierHandler)
    (message : TextMessage) (autoReply : Bool) (h : senderName conn message = none) :
    addParticipant conn handler message autoReply = some (handler, []) := by
  unfold senderName at h
  unfold addParticipant
  cases hp : message.Info.Participant with
  | none => rfl
  | some sender =>
    cases hc : conn.Contacts sender with
    | none => simp only [hc]
    | some contact => simp [hp, hc] at h

theorem removeParticipant_unresolved (conn : Conn) (handler : WaaierHandler)
    (message : TextMessage) (autoReply : Bool) (h : senderName conn message = none) :
    removeParticipant conn handler message autoReply = some (handler, []) := by
  unfold senderName at h
  unfold removeParticipant
  cases hp : message.Info.Participant with
  | none => rfl
  | some sender =>
    cases hc : conn.Contacts sender with
    | none => simp only [hc]
    | some contact => simp [hp, hc] at h

theorem addParticipant_resolved (conn : Conn) (handler : WaaierHandler) (info : waaierInfo)
    (message : TextMessage) (autoReply : Bool) (n : String)
    (hName : senderName conn message = some n) (hInfo : handler.Info = some info) :
    addParticipant conn handler message autoReply =
      if n ∈ info.Participants then some (handler, [])
      else
        some ({ handler with
                Info := some { info with Participants := info.Participants ++ [n] } },
          if autoReply then
            [outgoing message.Info.RemoteJid
              (addedText { info with Participants := info.Participants ++ [n] })]
          else []) := by
  obtain ⟨sender, contact, hp, hc, hn⟩ := senderName_some conn message n hName
  subst hn
  simp only [addParticipant, hp, hc, hInfo, isInList_gt]
  split_ifs <;> rfl

/-- The event time set by `createWaaierEvent`. -/
theorem createWaaierEvent_time (now : time.Time) :
    (if time.Before (time.Date (time.Year now) (time.Month now) (time.Day now) 17 45 0 0) now
      then time.Add (time.Date (time.Year now) (time.Month now) (time.Day now) 17 45 0 0)
        time.duration24h
      else time.Date (time.Year now) (time.Month now) (time.Day now) 17 45 0 0)
      = defaultEventTime now := by
  simp only [time.Date_1745, time.Before, time.Add, defaultEventTime, decide_eq_true_eq]

theorem commands_trigger (conn : Conn) (handler : WaaierHandler) (message : TextMessage)
    (h : message.Text = "_?_") :
    commands conn handler message = some (handler, []) := by
  have e2 : gostring.sliceTo "_?_" 2 = some (gostring.bytes "_?") := by decide
  have e1 : gostring.sliceTo "_?_" 1 = some (gostring.bytes "_") := by decide
  have n1 : ¬ gostring.bytes "_?" = gostring.bytes "+1" := by decide
  have n2 : ¬ gostring.bytes "_?" = gostring.bytes "-1" := by decide
  have n3 : ¬ gostring.bytes "_" = gostring.bytes "?" := by decide
  have e3 : fmt.Sscanf_d_colon_d "_?_" = none := by decide
  simp only [commands, changeWaaierTime, h, e1, e2, e3, n1, n2, n3, if_false]

theorem respond_trigger (conn : Conn) (handler : WaaierHandler) (info : waaierInfo)
    (message : TextMessage) (hText : message.Text = "_?_") :
    respond conn handler info message =
      some ({ handler with
              Info := some { info with
                             ReplyMessages := info.ReplyMessages ++ [message.Info.Id] } },
        [outgoing message.Info.RemoteJid (infoText info)]) := by
  simp only [respond, hText, if_true, displayWaaierInfo]
  split_ifs with h
  · rfl
  · rw [commands_trigger conn _ message hText]
    rfl

theorem removeParticipant_absent (conn : Conn) (handler : WaaierHandler) (info : waaierInfo)
    (message : TextMessage) (autoReply : Bool) (n : String)
    (hName : senderName conn message = some n) (hInfo : handler.Info = some info)
    (hAbsent : n ∉ info.Participants) :
    removeParticipant conn handler message autoReply = some (handler, []) := by
  obtain ⟨sender, contact, hp, hc, hn⟩ := senderName_some conn message n hName
  subst hn
  have e := (isInList_eq_neg_one info.Participants contact.Notify).mpr hAbsent
  simp only [removeParticipant, hp, hc, hInfo, e, if_true]

theorem removeParticipant_sole (conn : Conn) (handler : WaaierHandler) (info : waaierInfo)
    (message : TextMessage) (autoReply : Bool) (n : String)
    (hName : senderName conn message = some n) (hInfo : handler.Info = some info)
    (hSole : info.Participants = [n]) :
    removeParticipant conn handler message autoReply =
      some ({ handler with Info := none },
        if autoReply then [outgoing message.Info.RemoteJid cancelledText] else []) := by
  obtain ⟨sender, contact, hp, hc, hn⟩ := senderName_some conn message n hName
  subst hn
  have e : ¬ isInList info.Participants contact.Notify = -1 := by
    rw [isInList_eq_neg_one, hSole]
    simp
  have hl : info.Participants.length = 1 := by rw [hSole]; rfl
  simp only [removeParticipant, hp, hc, hInfo, e, hl, if_false, if_true]

theorem swapRemove_last (pre : List String) (x : String) :
    swapRemove (pre ++ [x]) pre.length = pre := by
  simp [swapRemove]

theorem swapRemove_inner (pre mid : List String) (x z : String) :
    swapRemove (pre ++ x :: (mid ++ [z])) pre.length = pre ++ z :: mid := by
  have e : pre ++ z :: (mid ++ [z]) = (pre ++ z :: mid) ++ [z] := by simp
  have g : (pre ++ x :: (mid ++ [z])).getLast?.getD "" = z := by
    have e2 : pre ++ x :: (mid ++ [z]) = (pre ++ x :: mid) ++ [z] := by simp
    rw [e2, List.getLast?_append]
    simp
  simp only [swapRemove, List.getLastD_eq_getLast?, List.set_append_right _ _ (le_refl _),
    Nat.sub_self, List.set_cons_zero, g]
  rw [e, List.dropLast_concat]

/-- Removing the first occurrence by `removeFromList` is `swapRemove` at its
index; the result is a permutation of the list with the item erased. -/
theorem removeFromList_isInList (list : List String) (item : String) (h : item ∈ list) :
    removeFromList list (isInList list item) = some (swapRemove list (list.indexOf item)) ∧
    (swapRemove list (list.indexOf item)).Perm (list.erase item) ∧
    (swapRemove list (list.indexOf item)).length + 1 = list.length := by
  obtain ⟨pre, post, e, hn⟩ := split_at_first list item h
  subst e
  have hidx : (pre ++ item :: post).indexOf item = pre.length := by
    rw [List.indexOf_append_of_not_mem hn]
    simp
  have herase : (pre ++ item :: post).erase item = pre ++ post := by
    rw [List.erase_append_right _ hn]
    simp
  rw [isInList_append pre post item hn, hidx, herase]
  rcases List.eq_nil_or_concat post with hp | ⟨mid, z, hp⟩
  · subst hp
    rw [removeFromList_last, swapRemove_last]
    simp
  · subst hp
    rw [List.concat_eq_append, removeFromList_inner, swapRemove_inner]
    refine ⟨rfl, ?_, by simp; omega⟩
    refine List.Perm.append_left pre ?_
    show ([z] ++ mid).Perm (mid ++ [z])
    exact List.perm_append_comm

theorem removeParticipant_member (conn : Conn) (handler : WaaierHandler) (info : waaierInfo)
    (message : TextMessage) (autoReply : Bool) (n : String)
    (hName : senderName conn message = some n) (hInfo : handler.Info = some info)
    (hMem : n ∈ info.Participants) (hLen : info.Participants.length ≠ 1) :
    removeParticipant conn handler message autoReply =
      some ({ handler with
              Info := some { info with
                Participants := swapRemove info.Participants (info.Participants.indexOf n) } },
        if autoReply then
          [outgoing message.Info.RemoteJid
            (removedText { info with
              Participants := swapRemove info.Participants (info.Participants.indexOf n) })]
        else []) := by
  obtain ⟨sender, contact, hp, hc, hn⟩ := senderName_some conn message n hName
  subst hn
  have e : ¬ isInList info.Participants contact.Notify = -1 := by
    rw [isInList_eq_neg_one]
    exact fun h => h hMem
  simp only [removeParticipant, hp, hc, hInfo, e, hLen, if_false,
    (removeFromList_isInList info.Participants contact.Notify hMem).1]

/-- What `createWaaierEvent` returns: an event at the default time whose
attendee list holds the sender when the sender resolves, and the creation
notice. -/
theorem createWaaierEvent_eq (now : time.Time) (conn : Conn) (handler : WaaierHandler)
    (message : TextMessage) :
    createWaaierEvent now conn handler message =
      some ({ handler with
              Info := some { Going := true,
                             Participants := (senderName conn message).toList,
                             Time := defaultEventTime now,
                             ReplyMessages := [message.Info.Id] } },
        [outgoing message.Info.RemoteJid
          (createdText { Going := true,
                         Participants := (senderName conn message).toList,
                         Time := defaultEventTime now,
                         ReplyMessages := [message.Info.Id] })]) := by
  have ht := createWaaierEvent_time now
  cases hs : senderName conn message with
  | none =>
    simp only [createWaaierEvent]
    rw [addParticipant_unresolved conn _ message false hs]
    by_cases hb : time.Before (time.Date (time.Year now) (time.Month now) (time.Day now)
        17 45 0 0) now = true
    · simp only [hb, if_true] at ht ⊢
      simp only [ht, Option.toList, List.nil_append]
    · simp only [hb, Bool.false_eq_true, if_false] at ht ⊢
      simp only [ht, Option.toList, List.nil_append]
  | some n =>
    simp only [createWaaierEvent]
    by_cases hb : time.Before (time.Date (time.Year now) (time.Month now) (time.Day now)
        17 45 0 0) now = true
    · simp only [hb, if_true] at ht ⊢
      rw [addParticipant_resolved conn _ _ message false n hs rfl]
      simp [ht, Option.toList, createdText]
    · simp only [hb, Bool.false_eq_true, if_false] at ht ⊢
      rw [addParticipant_resolved conn _ _ message false n hs rfl]
      simp [ht, Option.toList, createdText]

/-- The default time of a new event is never before the clock reading it was
computed from. -/
theorem defaultEventTime_not_before (now : Int) : ¬ ((defaultEventTime now : Int) < now) := by
  simp only [defaultEventTime, at1745, time.duration24h, time.nsPerDay, time.secondsPerDay,
    time.nsPerSecond]
  split_ifs with h
  · show ¬ ((_ : Int) < _)
    omega
  · exact h

/-! ### The attendee invariant, step by step -/

theorem attendeesOk_same (handler handler1 : WaaierHandler)
    (h : ∀ info1, handler1.Info = some info1 →
      ∃ info, handler.Info = some info ∧ info1.Participants = info.Participants)
    (hOk : AttendeesOk handler) : AttendeesOk handler1 := by
  intro info1 h1
  obtain ⟨info, hi, hp⟩ := h info1 h1
  rw [hp]
  exact hOk info hi

theorem changeWaaierTime_participants (handler : WaaierHandler) (message : TextMessage)
    (r : WaaierHandler × List TextMessage) (h : changeWaaierTime handler message = some r) :
    ∀ info1, r.1.Info = some info1 →
      ∃ info, handler.Info = some info ∧ info1.Participants = info.Participants := by
  unfold changeWaaierTime at h
  cases hs : fmt.Sscanf_d_colon_d message.Text with
  | none =>
    simp only [hs, Option.some.injEq] at h
    subst h
    exact fun info1 h1 => ⟨info1, h1, rfl⟩
  | some hm =>
    simp only [hs] at h
    split_ifs at h with hc
    · simp only [Option.some.injEq] at h
      subst h
      exact fun info1 h1 => ⟨info1, h1, rfl⟩
    · cases hi : handler.Info with
      | none => simp [hi] at h
      | some info =>
        simp only [hi, Option.some.injEq] at h
        subst h
        intro info1 h1
        simp only [Option.some.injEq] at h1
        subst h1
        exact ⟨info, rfl, rfl⟩

theorem addParticipant_attendeesOk (conn : Conn) (handler : WaaierHandler)
    (message : TextMessage) (autoReply : Bool) (n : String)
    (hName : senderName conn message = some n) (hOk : AttendeesOk handler)
    (r : WaaierHandler × List TextMessage)
    (h : addParticipant conn handler message autoReply = some r) : AttendeesOk r.1 := by
  cases hi : handler.Info with
  | none =>
    obtain ⟨sender, contact, hp, hc, -⟩ := senderName_some conn message n hName
    simp [addParticipant, hp, hc, hi] at h
  | some info =>
    rw [addParticipant_resolved conn handler info message autoReply n hName hi] at h
    by_cases hm : n ∈ info.Participants
    · rw [if_pos hm] at h
      simp only [Option.some.injEq] at h
      subst h
      exact hOk
    · rw [if_neg hm] at h
      simp only [Option.some.injEq] at h
      subst h
      intro info1 h1
      simp only [Option.some.injEq] at h1
      subst h1
      refine ⟨by simp, ?_⟩
      have hnd := (hOk info hi).2
      simp only [List.nodup_append, hnd, List.nodup_singleton, true_and]
      intro a ha hb
      simp only [List.mem_singleton] at hb
      subst hb
      exact hm ha

theorem removeParticipant_attendeesOk (conn : Conn) (handler : WaaierHandler)
    (message : TextMessage) (autoReply : Bool) (n : String)
    (hName : senderName conn message = some n) (hOk : AttendeesOk handler)
    (r : WaaierHandler × List TextMessage)
    (h : removeParticipant conn handler message autoReply = some r) : AttendeesOk r.1 := by
  cases hi : handler.Info with
  | none =>
    obtain ⟨sender, contact, hp, hc, -⟩ := senderName_some conn message n hName
    simp [removeParticipant, hp, hc, hi] at h
  | some info =>
    by_cases hm : n ∈ info.Participants
    · by_cases hl : info.Participants.length = 1
      · obtain ⟨a, ha⟩ := List.length_eq_one.mp hl
        have hs : info.Participants = [n] := by
          rw [ha] at hm ⊢
          simp only [List.mem_singleton] at hm
          rw [hm]
        rw [removeParticipant_sole conn handler info message autoReply n hName hi hs] at h
        simp only [Option.some.injEq] at h
        subst h
        intro info1 h1
        simp at h1
      · rw [removeParticipant_member conn handler info message autoReply n hName hi hm hl] at h
        simp only [Option.some.injEq] at h
        subst h
        obtain ⟨-, hperm, hlen⟩ := removeFromList_isInList info.Participants n hm
        intro info1 h1
        simp only [Option.some.injEq] at h1
        subst h1
        obtain ⟨hne, hnd⟩ := hOk info hi
        refine ⟨?_, hperm.nodup_iff.mpr (hnd.erase n)⟩
        intro he
        simp only at he
        rw [he] at hlen
        simp only [List.length_nil, zero_add] at hlen
        exact hl hlen.symm
    · rw [removeParticipant_absent conn handler info message autoReply n hName hi hm] at h
      simp only [Option.some.injEq] at h
      subst h
      exact hOk

theorem commands_attendeesOk (conn : Conn) (handler : WaaierHandler) (message : TextMessage)
    (n : String) (hName : senderName conn message = some n) (hOk : AttendeesOk handler)
    (r : WaaierHandler × List TextMessage)
    (h : commands conn handler message = some r) : AttendeesOk r.1 := by
  unfold commands at h
  cases h2 : gostring.sliceTo message.Text 2 with
  | none => simp [h2] at h
  | some two =>
    simp only [h2] at h
    split_ifs at h with ha hb
    · exact addParticipant_attendeesOk conn handler message true n hName hOk r h
    · exact removeParticipant_attendeesOk conn handler message true n hName hOk r h
    · cases h1 : gostring.sliceTo message.Text 1 with
      | none => simp [h1] at h
      | some one =>
        simp only [h1] at h
        split_ifs at h with hq
        · unfold displayWaaierInfo at h
          cases hi : handler.Info with
          | none => simp [hi] at h
          | some info =>
            simp only [hi, Option.some.injEq] at h
            subst h
            exact hOk
        · exact attendeesOk_same handler r.1 (changeWaaierTime_participants handler message r h)
            hOk

theorem respond_attendeesOk (conn : Conn) (handler : WaaierHandler) (info : waaierInfo)
    (message : TextMessage) (n : String) (hInfo : handler.Info = some info)
    (hName : senderName conn message = some n) (hOk : AttendeesOk handler)
    (r : WaaierHandler × List TextMessage)
    (h : respond conn handler info message = some r) : AttendeesOk r.1 := by
  by_cases hText : message.Text = "_?_"
  · rw [respond_trigger conn handler info message hText] at h
    simp only [Option.some.injEq] at h
    subst h
    intro info1 h1
    simp only [Option.some.injEq] at h1
    subst h1
    exact hOk info hInfo
  · rw [respond_other conn handler info message hInfo hText] at h
    split_ifs at h with hr
    · simp only [Option.some.injEq] at h
      subst h
      exact hOk
    · exact commands_attendeesOk conn handler message n hName hOk r h

/-- One handled message from a resolved sender keeps the attendee invariant. -/
theorem HandleTextMessage_attendeesOk (now : time.Time) (conn : Conn)
    (handler : WaaierHandler) (message : TextMessage) (n : String)
    (hName : senderName conn message = some n) (hOk : AttendeesOk handler)
    (r : WaaierHandler × List TextMessage)
    (h : HandleTextMessage now conn handler message = some r) : AttendeesOk r.1 := by
  unfold HandleTextMessage at h
  split_ifs at h with hTs hJid hCreate
  · simp only [Option.some.injEq] at h
    subst h
    exact hOk
  · simp only [Option.some.injEq] at h
    subst h
    exact hOk
  · rw [createWaaierEvent_eq, hName] at h
    simp only [Option.some.injEq] at h
    subst h
    intro info1 h1
    simp only [Option.some.injEq] at h1
    subst h1
    simp [Option.toList]
  · cases hi : handler.Info with
    | none =>
      simp only [hi, Option.some.injEq] at h
      subst h
      exact hOk
    | some info =>
      simp only [hi] at h
      split_ifs at h with hExp
      · simp only [Option.some.injEq] at h
        subst h
        intro info1 h1
        simp at h1
      · exact respond_attendeesOk conn handler info message n hi hName hOk r h

theorem handleAll_attendeesOk (deliveries : List Delivery) (handler : WaaierHandler)
    (hOk : AttendeesOk handler) (hRes : AllResolved deliveries) (final : WaaierHandler)
    (hRun : handleAll handler deliveries = some final) : AttendeesOk final := by
  induction deliveries generalizing handler with
  | nil =>
    simp only [handleAll, Option.some.injEq] at hRun
    subst hRun
    exact hOk
  | cons d rest ih =>
    simp only [handleAll] at hRun
    cases hr : HandleTextMessage d.now d.conn handler d.message with
    | none => simp [hr] at hRun
    | some r =>
      simp only [hr] at hRun
      obtain ⟨n, hn⟩ := Option.isSome_iff_exists.mp (hRes d (List.mem_cons_self d rest))
      exact ih r.1 (HandleTextMessage_attendeesOk d.now d.conn handler d.message n hn hOk r hr)
        (fun e he => hRes e (List.mem_cons_of_mem d he)) hRun

end handlers

/-! ## Texts: byte length, prefixes and the scan of `%d:%d` -/

namespace handlers

open whatsapp

/-- With enough bytes, `s[:len(p)]` differs from `p` when `s` does not start
with `p`. -/
theorem sliceTo_of_not_HasPrefix (s p : String) (hlen : gostring.len p ≤ gostring.len s)
    (h : gostring.HasPrefix s p = false) :
    ∃ x, gostring.sliceTo s (gostring.len p) = some x ∧ x ≠ gostring.bytes p := by
  refine ⟨(gostring.bytes s).take (gostring.len p), by simp only [gostring.sliceTo, hlen, if_true],
    ?_⟩
  intro e
  have hp : gostring.HasPrefix s p = true := by
    simp only [gostring.HasPrefix, List.isPrefixOf_iff_prefix]
    rw [List.prefix_iff_eq_take]
    exact e.symm
  rw [h] at hp
  exact Bool.false_ne_true hp

/-- The command chain on a text of at least two bytes that starts with none of
`+1`, `-1`, `?`: the time change. -/
theorem commands_time (conn : Conn) (handler : WaaierHandler) (message : TextMessage)
    (hLen : 2 ≤ gostring.len message.Text)
    (hAdd : gostring.HasPrefix message.Text "+1" = false)
    (hRem : gostring.HasPrefix message.Text "-1" = false)
    (hStatus : gostring.HasPrefix message.Text "?" = false) :
    commands conn handler message = changeWaaierTime handler message := by
  obtain ⟨two, h2, n2⟩ := sliceTo_of_not_HasPrefix message.Text "+1" hLen hAdd
  obtain ⟨two', h2', n2'⟩ := sliceTo_of_not_HasPrefix message.Text "-1" hLen hRem
  obtain ⟨one, h1, n1⟩ := sliceTo_of_not_HasPrefix message.Text "?"
    (show 1 ≤ gostring.len message.Text by omega) hStatus
  have e2 : gostring.len "+1" = 2 := by decide
  have e2' : gostring.len "-1" = 2 := by decide
  have e1 : gostring.len "?" = 1 := by decide
  rw [e2] at h2
  rw [e2', h2, Option.some.injEq] at h2'
  subst h2'
  rw [e1] at h1
  simp only [commands, h2, h1, n2, n2', n1, if_false]

/-- The command chain on a text of at least two bytes that starts with `?`:
the status. -/
theorem commands_status (conn : Conn) (handler : WaaierHandler) (message : TextMessage)
    (hLen : 2 ≤ gostring.len message.Text)
    (hStatus : gostring.HasPrefix message.Text "?" = true) :
    commands conn handler message = displayWaaierInfo handler message := by
  have h1 : gostring.sliceTo message.Text 1 = some (gostring.bytes "?") :=
    sliceTo_of_HasPrefix message.Text "?" hStatus
  have h2 : gostring.sliceTo message.Text 2 = some ((gostring.bytes message.Text).take 2) := by
    simp only [gostring.sliceTo, hLen, if_true]
  have ht : (gostring.bytes message.Text).take 1 = gostring.bytes "?" := by
    simp only [gostring.sliceTo] at h1
    split_ifs at h1 with hl
    exact Option.some.inj h1
  have n2 : ¬ (gostring.bytes message.Text).take 2 = gostring.bytes "+1" := by
    intro e
    have := congrArg (List.take 1) e
    rw [List.take_take] at this
    simp only [min_def] at this
    rw [if_pos (by omega), ht] at this
    revert this
    decide
  have n2' : ¬ (gostring.bytes message.Text).take 2 = gostring.bytes "-1" := by
    intro e
    have := congrArg (List.take 1) e
    rw [List.take_take] at this
    simp only [min_def] at this
    rw [if_pos (by omega), ht] at this
    revert this
    decide
  simp only [commands, h2, h1, n2, n2', if_false, if_true]

/-! ### The shape of a handled message -/

/-- What a command can do to an existing event: nothing at all, or one message
to the conversation of the command together with a new handler value that has
the same start time and, when its event still exists, the same acknowledged
ids. -/
theorem commands_shape (conn : Conn) (handler : WaaierHandler) (info : waaierInfo)
    (message : TextMessage) (hInfo : handler.Info = some info)
    (r : WaaierHandler × List TextMessage) (h : commands conn handler message = some r) :
    r = (handler, []) ∨
    (∃ text, r.2 = [outgoing message.Info.RemoteJid text] ∧
      r.1.StartTime = handler.StartTime ∧
      ∀ info1, r.1.Info = some info1 → info1.ReplyMessages = info.ReplyMessages) := by
  unfold commands at h
  cases h2 : gostring.sliceTo message.Text 2 with
  | none => simp [h2] at h
  | some two =>
    simp only [h2] at h
    split_ifs at h with ha hb
    · cases hs : senderName conn message with
      | none =>
        rw [addParticipant_unresolved conn handler message true hs] at h
        exact Or.inl (Option.some.inj h).symm
      | some n =>
        rw [addParticipant_resolved conn handler info message true n hs hInfo] at h
        by_cases hm : n ∈ info.Participants
        · rw [if_pos hm] at h
          exact Or.inl (Option.some.inj h).symm
        · rw [if_neg hm] at h
          have e := (Option.some.inj h).symm
          subst e
          refine Or.inr ⟨_, rfl, rfl, ?_⟩
          intro info1 h1
          simp only [Option.some.injEq] at h1
          subst h1
          rfl
    · cases hs : senderName conn message with
      | none =>
        rw [removeParticipant_unresolved conn handler message true hs] at h
        exact Or.inl (Option.some.inj h).symm
      | some n =>
        by_cases hm : n ∈ info.Participants
        · by_cases hl : info.Participants.length = 1
          · obtain ⟨a, ha1⟩ := List.length_eq_one.mp hl
            have hsole : info.Participants = [n] := by
              rw [ha1] at hm ⊢
              simp only [List.mem_singleton] at hm
              rw [hm]
            rw [removeParticipant_sole conn handler info message true n hs hInfo hsole] at h
            have e := (Option.some.inj h).symm
            subst e
            refine Or.inr ⟨_, rfl, rfl, ?_⟩
            intro info1 h1
            simp at h1
          · rw [removeParticipant_member conn handler info message true n hs hInfo hm hl] at h
            have e := (Option.some.inj h).symm
            subst e
            refine Or.inr ⟨_, rfl, rfl, ?_⟩
            intro info1 h1
            simp only [Option.some.injEq] at h1
            subst h1
            rfl
        · rw [removeParticipant_absent conn handler info message true n hs hInfo hm] at h
          exact Or.inl (Option.some.inj h).symm
    · cases h1 : gostring.sliceTo message.Text 1 with
      | none => simp [h1] at h
      | some one =>
        simp only [h1] at h
        split_ifs at h with hq
        · simp only [displayWaaierInfo, hInfo, Option.some.injEq] at h
          subst h
          refine Or.inr ⟨_, rfl, rfl, ?_⟩
          intro info1 h1
          rw [hInfo, Option.some.injEq] at h1
          subst h1
          rfl
        · unfold changeWaaierTime at h
          cases hs : fmt.Sscanf_d_colon_d message.Text with
          | none =>
            simp only [hs] at h
            exact Or.inl (Option.some.inj h).symm
          | some hm =>
            simp only [hs] at h
            split_ifs at h with hc
            · exact Or.inl (Option.some.inj h).symm
            · simp only [hInfo, Option.some.injEq] at h
              subst h
              refine Or.inr ⟨_, rfl, rfl, ?_⟩
              intro info1 h1
              simp only [Option.some.injEq] at h1
              subst h1
              rfl

/-- What one handled message can do: nothing at all; the silent reset of an
expired event; or exactly one message to the conversation of the inbound
message, where an event that existed was not expired and, when it still
exists, has its acknowledged ids extended at the end. -/
theorem HandleTextMessage_shape (now : time.Time) (conn : Conn) (handler : WaaierHandler)
    (message : TextMessage) (r : WaaierHandler × List TextMessage)
    (h : HandleTextMessage now conn handler message = some r) :
    r = (handler, []) ∨
    (∃ info, handler.Info = some info ∧ info.Time < now ∧
      r = ({ handler with Info := none }, [])) ∨
    (∃ text, r.2 = [outgoing message.Info.RemoteJid text] ∧
      r.1.StartTime = handler.StartTime ∧
      ∀ info, handler.Info = some info →
        ¬ info.Time < now ∧
        ∀ info1, r.1.Info = some info1 →
          ∃ extra, info1.ReplyMessages = info.ReplyMessages ++ extra) := by
  unfold HandleTextMessage at h
  split_ifs at h with hTs hJid hCreate
  · exact Or.inl (Option.some.inj h).symm
  · exact Or.inl (Option.some.inj h).symm
  · rw [createWaaierEvent_eq] at h
    have e := (Option.some.inj h).symm
    subst e
    refine Or.inr (Or.inr ⟨_, rfl, rfl, ?_⟩)
    intro info hi
    rw [hi] at hCreate
    simp at hCreate
  · cases hi : handler.Info with
    | none =>
      simp only [hi] at h
      exact Or.inl (Option.some.inj h).symm
    | some info =>
      simp only [hi] at h
      split_ifs at h with hExp
      · simp only [time.Before, decide_eq_true_eq] at hExp
        exact Or.inr (Or.inl ⟨info, rfl, hExp, (Option.some.inj h).symm⟩)
      · simp only [time.Before, decide_eq_true_eq] at hExp
        by_cases hText : message.Text = "_?_"
        · rw [respond_trigger conn handler info message hText] at h
          have e := (Option.some.inj h).symm
          subst e
          refine Or.inr (Or.inr ⟨_, rfl, rfl, ?_⟩)
          intro info0 h0
          rw [Option.some.injEq] at h0
          subst h0
          refine ⟨hExp, ?_⟩
          intro info1 h1
          simp only [Option.some.injEq] at h1
          subst h1
          exact ⟨[message.Info.Id], rfl⟩
        · rw [respond_other conn handler info message hi hText] at h
          split_ifs at h with hr
          · exact Or.inl (Option.some.inj h).symm
          · rcases commands_shape conn handler info message hi r h with e | ⟨text, e1, e2, e3⟩
            · exact Or.inl e
            · refine Or.inr (Or.inr ⟨text, e1, e2, ?_⟩)
              intro info0 h0
              rw [Option.some.injEq] at h0
              subst h0
              refine ⟨hExp, ?_⟩
              intro info1 h1
              exact ⟨[], by rw [e3 info1 h1, List.append_nil]⟩

/-- With an event in place, the command chain does not panic on a text of at
least two bytes. -/
theorem commands_total (conn : Conn) (handler : WaaierHandler) (info : waaierInfo)
    (message : TextMessage) (hInfo : handler.Info = some info)
    (hLen : 2 ≤ gostring.len message.Text) :
    ∃ r, commands conn handler message = some r := by
  have h2 : gostring.sliceTo message.Text 2 = some ((gostring.bytes message.Text).take 2) := by
    simp only [gostring.sliceTo, hLen, if_true]
  have h1 : gostring.sliceTo message.Text 1 = some ((gostring.bytes message.Text).take 1) := by
    have hl : 1 ≤ gostring.len message.Text := by omega
    simp only [gostring.sliceTo, hl, if_true]
  simp only [commands, h2, h1]
  split_ifs with ha hb hq
  · cases hs : senderName conn message with
    | none => exact ⟨_, addParticipant_unresolved conn handler message true hs⟩
    | some n =>
      rw [addParticipant_resolved conn handler info message true n hs hInfo]
      split_ifs <;> exact ⟨_, rfl⟩
  · cases hs : senderName conn message with
    | none => exact ⟨_, removeParticipant_unresolved conn handler message true hs⟩
    | some n =>
      by_cases hm : n ∈ info.Participants
      · by_cases hl : info.Participants.length = 1
        · obtain ⟨a, ha1⟩ := List.length_eq_one.mp hl
          have hsole : info.Participants = [n] := by
            rw [ha1] at hm ⊢
            simp only [List.mem_singleton] at hm
            rw [hm]
          exact ⟨_, removeParticipant_sole conn handler info message true n hs hInfo hsole⟩
        · exact ⟨_, removeParticipant_member conn handler info message true n hs hInfo hm hl⟩
      · exact ⟨_, removeParticipant_absent conn handler info message true n hs hInfo hm⟩
  · simp only [displayWaaierInfo, hInfo]
    exact ⟨_, rfl⟩
  · unfold changeWaaierTime
    cases hs : fmt.Sscanf_d_colon_d message.Text with
    | none => exact ⟨_, rfl⟩
    | some hm =>
      simp only [hInfo]
      split_ifs
      · exact ⟨_, rfl⟩
      · exact ⟨_, rfl⟩

/-- The handler does not panic on a text of at least two bytes. -/
theorem HandleTextMessage_total (now : time.Time) (conn : Conn) (handler : WaaierHandler)
    (message : TextMessage) (hLen : 2 ≤ gostring.len message.Text) :
    ∃ r, HandleTextMessage now conn handler message = some r := by
  unfold HandleTextMessage
  split_ifs with hTs hJid hCreate
  · exact ⟨_, rfl⟩
  · exact ⟨_, rfl⟩
  · exact ⟨_, createWaaierEvent_eq now conn handler message⟩
  · cases hi : handler.Info with
    | none => exact ⟨_, rfl⟩
    | some info =>
      simp only
      split_ifs with hExp
      · exact ⟨_, rfl⟩
      · by_cases hText : message.Text = "_?_"
        · exact ⟨_, respond_trigger conn handler info message hText⟩
        · rw [respond_other conn handler info message hi hText]
          split_ifs with hr
          · exact ⟨_, rfl⟩
          · exact commands_total conn handler info message hi hLen

/-! ### Acknowledged ids -/

theorem HandleTextMessage_ackIds (now : time.Time) (conn : Conn) (handler : WaaierHandler)
    (message : TextMessage) (r : WaaierHandler × List TextMessage) (info info1 : waaierInfo)
    (h : HandleTextMessage now conn handler message = some r)
    (hInfo : handler.Info = some info) (hStill : r.1.Info = some info1) :
    ∃ extra, info1.ReplyMessages = info.ReplyMessages ++ extra := by
  rcases HandleTextMessage_shape now conn handler message r h with
    e | ⟨info0, -, -, e⟩ | ⟨text, -, -, e3⟩
  · subst e
    rw [hInfo, Option.some.injEq] at hStill
    subst hStill
    exact ⟨[], (List.append_nil _).symm⟩
  · subst e
    exact Option.noConfusion hStill
  · exact (e3 info hInfo).2 info1 hStill

theorem handleAll_ackIds (deliveries : List Delivery) (handler : WaaierHandler)
    (info : waaierInfo) (final : WaaierHandler) (infoF : waaierInfo)
    (hInfo : handler.Info = some info)
    (hRun : handleAll handler deliveries = some final) (hFinal : final.Info = some infoF)
    (hAlive : ∀ k mid, handleAll handler (deliveries.take k) = some mid → mid.Info ≠ none) :
    ∃ extra, infoF.ReplyMessages = info.ReplyMessages ++ extra := by
  induction deliveries generalizing handler info with
  | nil =>
    simp only [handleAll, Option.some.injEq] at hRun
    subst hRun
    rw [hInfo, Option.some.injEq] at hFinal
    subst hFinal
    exact ⟨[], (List.append_nil _).symm⟩
  | cons d rest ih =>
    simp only [handleAll] at hRun
    cases hr : HandleTextMessage d.now d.conn handler d.message with
    | none => simp [hr] at hRun
    | some r =>
      simp only [hr] at hRun
      have h1 : r.1.Info ≠ none := by
        refine hAlive 1 r.1 ?_
        simp only [List.take_succ_cons, List.take_zero, handleAll, hr]
      obtain ⟨info1, hi1⟩ := Option.ne_none_iff_exists'.mp h1
      obtain ⟨extra1, he1⟩ :=
        HandleTextMessage_ackIds d.now d.conn handler d.message r info info1 hr hInfo hi1
      have hAlive1 : ∀ k mid, handleAll r.1 (rest.take k) = some mid → mid.Info ≠ none := by
        intro k mid hk
        refine hAlive (k + 1) mid ?_
        simp only [List.take_succ_cons, handleAll, hr]
        exact hk
      obtain ⟨extra2, he2⟩ := ih r.1 info1 hi1 hRun hAlive1
      exact ⟨extra1 ++ extra2, by rw [he2, he1, List.append_assoc]⟩

/-! ### The list helpers at any index -/

theorem removeFromList_at (list : List String) (i : Nat) (hi : i < list.length) :
    ∃ r, removeFromList list i = some r ∧ r.length + 1 = list.length ∧
      r.Perm (list.eraseIdx i) := by
  have hsplit : list = list.take i ++ list[i] :: list.drop (i + 1) := by
    rw [← List.drop_eq_getElem_cons hi, List.take_append_drop]
  have hlen : (list.take i).length = i := by
    rw [List.length_take]
    omega
  have herase : list.eraseIdx i = list.take i ++ list.drop (i + 1) :=
    List.eraseIdx_eq_take_drop_succ list i
  rw [herase]
  generalize list.take i = pre at hsplit hlen
  generalize list[i] = x at hsplit
  generalize list.drop (i + 1) = post at hsplit
  subst hsplit
  subst hlen
  rcases List.eq_nil_or_concat post with hp | ⟨mid, z, hp⟩
  · subst hp
    refine ⟨pre, removeFromList_last pre x, by simp, by simp⟩
  · subst hp
    rw [List.concat_eq_append]
    refine ⟨pre ++ z :: mid, removeFromList_inner pre mid x z, by simp; omega, ?_⟩
    refine List.Perm.append_left pre ?_
    show ([z] ++ mid).Perm (mid ++ [z])
    exact List.perm_append_comm

theorem isInList_first (list : List String) (item : String) (h : item ∈ list) :
    ∃ k : Nat, isInList list item = k ∧ list[k]? = some item ∧
      ∀ j, j < k → list[j]? ≠ some item := by
  obtain ⟨pre, post, e, hn⟩ := split_at_first list item h
  subst e
  refine ⟨pre.length, isInList_append pre post item hn, ?_, ?_⟩
  · rw [List.getElem?_append_right (le_refl _), Nat.sub_self]
    simp
  · intro j hj he
    rw [List.getElem?_append_left hj] at he
    exact hn (List.getElem?_mem he)

end handlers

/-! ## The handler in a location: agreement with the fixed clock, and steps -/

namespace time

theorem wall_UTC (t : Time) : wall UTC t = t := by
  simp only [wall, UTC, zero_mul, add_zero]

theorem DateIn_UTC (year month day hour min sec nsec : Int) :
    DateIn UTC year month day hour min sec nsec = Date year month day hour min sec nsec := by
  simp only [DateIn, UTC, ne_eq, not_true_eq_false, if_false, zero_mul, sub_zero]

theorem FormatMon1504In_UTC (t : Time) : FormatMon1504In UTC t = FormatMon1504 t := by
  simp only [FormatMon1504In, wall_UTC]

end time

namespace handlers

open whatsapp

theorem addParticipantIn_UTC (conn : Conn) (handler : WaaierHandler) (message : TextMessage)
    (autoReply : Bool) :
    addParticipantIn time.UTC conn handler message autoReply
      = addParticipant conn handler message autoReply := by
  simp only [addParticipantIn, addParticipant, addedTextIn, addedText, time.FormatMon1504In_UTC]

theorem removeParticipantIn_UTC (conn : Conn) (handler : WaaierHandler)
    (message : TextMessage) (autoReply : Bool) :
    removeParticipantIn time.UTC conn handler message autoReply
      = removeParticipant conn handler message autoReply := by
  simp only [removeParticipantIn, removeParticipant, removedTextIn, removedText,
    time.FormatMon1504In_UTC]

theorem displayWaaierInfoIn_UTC (handler : WaaierHandler) (message : TextMessage) :
    displayWaaierInfoIn time.UTC handler message = displayWaaierInfo handler message := by
  simp only [displayWaaierInfoIn, displayWaaierInfo, infoTextIn, infoText,
    time.FormatMon1504In_UTC]

theorem changeWaaierTimeIn_UTC (handler : WaaierHandler) (message : TextMessage) :
    changeWaaierTimeIn time.UTC handler message = changeWaaierTime handler message := by
  simp only [changeWaaierTimeIn, changeWaaierTime, timeUpdatedTextIn, timeUpdatedText,
    time.FormatMon1504In_UTC, time.DateIn_UTC, time.YearIn, time.MonthIn, time.DayIn,
    time.wall_UTC]

theorem createWaaierEventIn_UTC (now : time.Time) (conn : Conn) (handler : WaaierHandler)
    (message : TextMessage) :
    createWaaierEventIn time.UTC now conn handler message
      = createWaaierEvent now conn handler message := by
  simp only [createWaaierEventIn, createWaaierEvent, createdTextIn, createdText,
    time.FormatMon1504In_UTC, time.DateIn_UTC, time.YearIn, time.MonthIn, time.DayIn,
    time.wall_UTC, addParticipantIn_UTC]

theorem commandsIn_UTC (conn : Conn) (handler : WaaierHandler) (message : TextMessage) :
    commandsIn time.UTC conn handler message = commands conn handler message := by
  simp only [commandsIn, commands, addParticipantIn_UTC, removeParticipantIn_UTC,
    displayWaaierInfoIn_UTC, changeWaaierTimeIn_UTC]

theorem respondIn_UTC (conn : Conn) (handler : WaaierHandler) (info : waaierInfo)
    (message : TextMessage) :
    respondIn time.UTC conn handler info message = respond conn handler info message := by
  simp only [respondIn, respond, commandsIn_UTC, displayWaaierInfoIn_UTC]

/-- In the location UTC the handler with a location is the handler on the
fixed clock. -/
theorem HandleTextMessageIn_UTC (now : time.Time) (conn : Conn) (handler : WaaierHandler)
    (message : TextMessage) :
    HandleTextMessageIn time.UTC now conn handler message
      = HandleTextMessage now conn handler message := by
  simp only [HandleTextMessageIn, HandleTextMessage, createWaaierEventIn_UTC, respondIn_UTC]

end handlers

/-! ## The claims -/

namespace handlers

open whatsapp

/-- C1 (creation). With no event, a message `_?_` in the allowed conversation,
not older than the start of the bot, from a sender that resolves to the name
`n`, leaves an active event with attendees `[n]`, acknowledged ids `[id]` and
the default 17:45 time, and sends exactly one message, the creation notice,
to the conversation of the message. -/
theorem C1_creation (now : time.Time) (conn : Conn) (handler : WaaierHandler)
    (message : TextMessage) (n : String)
    (hInfo : handler.Info = none) (hText : message.Text = "_?_")
    (hJid : message.Info.RemoteJid = allowedJid)
    (hTs : ¬ message.Info.Timestamp < handler.StartTime)
    (hName : senderName conn message = some n) :
    HandleTextMessage now conn handler message =
      some ({ handler with
              Info := some { Going := true, Participants := [n],
                             Time := defaultEventTime now,
                             ReplyMessages := [message.Info.Id] } },
        [outgoing message.Info.RemoteJid
          ("[Waaier]\n\nA new Waaier event is created for " ++
            time.FormatMon1504 (defaultEventTime now) ++ ".")]) := by
  simp only [HandleTextMessage, hTs, hJid, hInfo, hText, if_false, ne_eq, not_true_eq_false,
    Option.isNone_none, and_self, if_true]
  rw [createWaaierEvent_eq, hName]
  simp only [Option.toList, createdText, hJid]

theorem C1_creation_witness :
    senderName exampleConn (inbound "m1" "_?_" "" (some aliceJid)) = some "Alice" ∧
    HandleTextMessage exampleNow exampleConn noEvent (inbound "m1" "_?_" "" (some aliceJid)) =
      some ({ noEvent with
              Info := some { Going := true, Participants := ["Alice"],
                             Time := defaultEventTime exampleNow,
                             ReplyMessages := ["m1"] } },
        [outgoing allowedJid
          ("[Waaier]\n\nA new Waaier event is created for " ++
            time.FormatMon1504 (defaultEventTime exampleNow) ++ ".")]) :=
  ⟨by decide,
   C1_creation exampleNow exampleConn noEvent (inbound "m1" "_?_" "" (some aliceJid)) "Alice"
     rfl rfl rfl (by decide) (by decide)⟩

/-- C2 (default creation time). For every clock reading `now`, the event made
by `createWaaierEvent` has as its time the instant `d` = 17:45:00 on the
calendar day of `now` when `d` is not before `now`, and `d` plus 24 hours
otherwise; in both cases the time is not before `now`. -/
theorem C2_default_time (now : time.Time) (conn : Conn) (handler : WaaierHandler)
    (message : TextMessage) :
    ∃ handler1 sent info,
      createWaaierEvent now conn handler message = some (handler1, sent) ∧
      handler1.Info = some info ∧
      info.Time =
        (if time.Before (time.Date (time.Year now) (time.Month now) (time.Day now) 17 45 0 0) now
          then time.Add (time.Date (time.Year now) (time.Month now) (time.Day now) 17 45 0 0)
            (24 * 3600 * 1000000000)
          else time.Date (time.Year now) (time.Month now) (time.Day now) 17 45 0 0) ∧
      time.Year (time.Date (time.Year now) (time.Month now) (time.Day now) 17 45 0 0)
        = time.Year now ∧
      time.Month (time.Date (time.Year now) (time.Month now) (time.Day now) 17 45 0 0)
        = time.Month now ∧
      time.Day (time.Date (time.Year now) (time.Month now) (time.Day now) 17 45 0 0)
        = time.Day now ∧
      time.Hour (time.Date (time.Year now) (time.Month now) (time.Day now) 17 45 0 0) = 17 ∧
      time.Minute (time.Date (time.Year now) (time.Month now) (time.Day now) 17 45 0 0) = 45 ∧
      time.Second (time.Date (time.Year now) (time.Month now) (time.Day now) 17 45 0 0) = 0 ∧
      time.Nanosecond (time.Date (time.Year now) (time.Month now) (time.Day now) 17 45 0 0) = 0 ∧
      time.Before info.Time now = false := by
  refine ⟨_, _, _, createWaaierEvent_eq now conn handler message, rfl, ?_⟩
  have hf := time.fields_of_dayStart now 17 45 (by omega) (by omega)
  simp only [time.Date_1745]
  simp only [at1745] at hf ⊢
  obtain ⟨f1, f2, f3, f4, f5, f6, f7⟩ := hf
  refine ⟨?_, f1, f2, f3, f4, f5, f6, f7, ?_⟩
  · simp only [defaultEventTime, at1745, time.Before, time.Add, time.duration24h,
      time.nsPerSecond, decide_eq_true_eq]
  · simp only [time.Before, decide_eq_false_iff_not]
    exact defaultEventTime_not_before now

/-- What the creation path does for a sender that does not resolve: the event
is created all the same, with an empty attendee list, and the creation notice
is sent. -/
theorem createWaaierEvent_unresolved_sender :
    HandleTextMessage exampleNow exampleConn noEvent (inbound "m1" "_?_" "" none) =
      some ({ Info := some { Going := true, Participants := [], Time := exampleEventTime,
                             ReplyMessages := ["m1"] },
              StartTime := 1597500000 },
        [outgoing allowedJid "[Waaier]\n\nA new Waaier event is created for Sat 17:45."]) := by
  decide

/-- C3, as stated, fails: a `+1` from an unresolved sender that arrives after
the event time resets the state to no event, and a `_?_` from an unresolved
sender during an active event records its id and is answered with the status. -/
theorem C3_counterexample :
    senderName exampleConn (inbound "m2" "+1" "m1" none) = none ∧
    HandleTextMessage exampleLate exampleConn (eventWith ["Alice"]) (inbound "m2" "+1" "m1" none)
      = some (noEvent, []) ∧
    noEvent ≠ eventWith ["Alice"] ∧
    senderName exampleConn (inbound "m2" "_?_" "" none) = none ∧
    HandleTextMessage exampleNow exampleConn (eventWith ["Alice"]) (inbound "m2" "_?_" "" none)
      = some ({ Info := some { Going := true, Participants := ["Alice"],
                               Time := exampleEventTime, ReplyMessages := ["m1", "m2"] },
                StartTime := 1597500000 },
          [outgoing allowedJid "[Waaier]\n\n🕒 Sat 17:45\nPeople that are going:\nAlice"]) := by
  decide

/-- C3 (amended). In every state whose event, if there is one, has not
expired, a message whose text starts with `+1` or `-1` and whose sender does
not resolve to a display name changes nothing and sends nothing. -/
theorem C3_unresolved_add_remove (now : time.Time) (conn : Conn) (handler : WaaierHandler)
    (message : TextMessage)
    (hText : gostring.HasPrefix message.Text "+1" = true ∨
      gostring.HasPrefix message.Text "-1" = true)
    (hName : senderName conn message = none)
    (hFresh : ∀ info, handler.Info = some info → ¬ info.Time < now) :
    HandleTextMessage now conn handler message = some (handler, []) := by
  have hne : message.Text ≠ "_?_" := by
    intro e
    rw [e, trigger_no_command.1, trigger_no_command.2] at hText
    simp at hText
  by_cases hTs : message.Info.Timestamp < handler.StartTime
  · simp only [HandleTextMessage, hTs, if_true]
  by_cases hJid : message.Info.RemoteJid = allowedJid
  swap
  · simp only [HandleTextMessage, hTs, hJid, if_false, ne_eq, not_false_eq_true, if_true]
  cases hInfo : handler.Info with
  | none =>
    simp only [HandleTextMessage, hTs, hJid, hInfo, hne, if_false, ne_eq, not_true_eq_false,
      and_false]
  | some info =>
    rw [HandleTextMessage_active now conn handler info message hInfo hTs hJid
      (hFresh info hInfo), respond_other conn handler info message hInfo hne]
    split_ifs with hr
    · rfl
    · rcases hText with h | h
      · rw [commands_add conn handler message h,
          addParticipant_unresolved conn handler message true hName]
      · rw [commands_remove conn handler message h,
          removeParticipant_unresolved conn handler message true hName]

theorem C3_unresolved_add_remove_witness :
    HandleTextMessage exampleNow exampleConn (eventWith ["Alice"]) (inbound "m2" "+1" "m1" none)
      = some (eventWith ["Alice"], []) :=
  C3_unresolved_add_remove exampleNow exampleConn (eventWith ["Alice"])
    (inbound "m2" "+1" "m1" none) (Or.inl (by decide)) (by decide)
    (fun info h => by
      have e : info = { Going := true, Participants := ["Alice"], Time := exampleEventTime,
                        ReplyMessages := ["m1"] } := (Option.some.inj h).symm
      subst e
      decide)

/-- C4 fails on the code: during an active event, a reply to an acknowledged
message whose text is shorter than two bytes (the status query `?`, or the
empty text) makes `message.Text[:2]` panic. -/
theorem C4_short_reply_panics :
    HandleTextMessage exampleNow exampleConn (eventWith ["Alice"])
      (inbound "m2" "?" "m1" (some bobJid)) = none ∧
    HandleTextMessage exampleNow exampleConn (eventWith ["Alice"])
      (inbound "m2" "" "m1" (some bobJid)) = none := by
  decide

/-- C5 (attendee invariant). Starting from no event, after any sequence of
messages whose senders all resolve to display names, and so in every state
reached along the way (the state after the first `k` messages, for every `k`),
an existing event has a non-empty attendee list without duplicates. -/
theorem C5_attendee_invariant (startTime : Nat) (deliveries : List Delivery) (k : Nat)
    (hRes : AllResolved deliveries) (reached : WaaierHandler)
    (hRun : handleAll { Info := none, StartTime := startTime } (deliveries.take k)
      = some reached) :
    AttendeesOk reached := by
  refine handleAll_attendeesOk (deliveries.take k) { Info := none, StartTime := startTime } ?_
    (fun d hd => hRes d (List.mem_of_mem_take hd)) reached hRun
  intro info h
  simp at h

theorem C5_attendee_invariant_witness :
    AllResolved exampleDeliveries ∧
    handleAll noEvent (exampleDeliveries.take 2) = some (eventWith ["Alice", "Bob"]) ∧
    AttendeesOk (eventWith ["Alice", "Bob"]) :=
  ⟨by decide, by decide,
   C5_attendee_invariant 1597500000 exampleDeliveries 2 (by decide)
     (eventWith ["Alice", "Bob"]) (by decide)⟩

/-- C6, as stated, fails: during an active event a `_?_` that replies to
nothing is not ignored; its id is recorded and the status is sent. -/
theorem C6_counterexample :
    "" ∉ ["m1"] ∧
    time.Before exampleEventTime exampleNow = false ∧
    HandleTextMessage exampleNow exampleConn (eventWith ["Alice"])
        (inbound "m2" "_?_" "" (some bobJid))
      = some ({ Info := some { Going := true, Participants := ["Alice"],
                               Time := exampleEventTime, ReplyMessages := ["m1", "m2"] },
                StartTime := 1597500000 },
          [outgoing allowedJid "[Waaier]\n\n🕒 Sat 17:45\nPeople that are going:\nAlice"]) := by
  decide

/-- C6 (amended). While an event is active and not expired, a message that does
not reply to an acknowledged id is ignored, whatever its text, with one
exception: a message with text `_?_` in the allowed conversation and not older
than the start of the bot gets its id appended to the acknowledged ids and is
answered with one status message, time and attendees unchanged. -/
theorem C6_not_a_reply (now : time.Time) (conn : Conn) (handler : WaaierHandler)
    (info : waaierInfo) (message : TextMessage)
    (hInfo : handler.Info = some info) (hFresh : ¬ info.Time < now)
    (hNoReply : message.ContextInfo.QuotedMessageID ∉ info.ReplyMessages) :
    HandleTextMessage now conn handler message =
      if message.Text = "_?_" ∧ ¬ message.Info.Timestamp < handler.StartTime ∧
          message.Info.RemoteJid = allowedJid then
        some ({ handler with
                Info := some { info with
                               ReplyMessages := info.ReplyMessages ++ [message.Info.Id] } },
          [outgoing message.Info.RemoteJid
            ("[Waaier]\n\n🕒 " ++ time.FormatMon1504 info.Time ++ "\nPeople that are going:\n" ++
              strings.Join info.Participants ", ")])
      else some (handler, []) := by
  by_cases hTs : message.Info.Timestamp < handler.StartTime
  · have hc : ¬ (message.Text = "_?_" ∧ ¬ message.Info.Timestamp < handler.StartTime ∧
        message.Info.RemoteJid = allowedJid) := fun h => h.2.1 hTs
    rw [if_neg hc]
    simp only [HandleTextMessage, hTs, if_true]
  by_cases hJid : message.Info.RemoteJid = allowedJid
  swap
  · have hc : ¬ (message.Text = "_?_" ∧ ¬ message.Info.Timestamp < handler.StartTime ∧
        message.Info.RemoteJid = allowedJid) := fun h => hJid h.2.2
    rw [if_neg hc]
    simp only [HandleTextMessage, hTs, hJid, if_false, ne_eq, not_false_eq_true, if_true]
  rw [HandleTextMessage_active now conn handler info message hInfo hTs hJid hFresh]
  by_cases hText : message.Text = "_?_"
  · rw [if_pos ⟨hText, hTs, hJid⟩, respond_trigger conn handler info message hText]
    rfl
  · have hc : ¬ (message.Text = "_?_" ∧ ¬ message.Info.Timestamp < handler.StartTime ∧
        message.Info.RemoteJid = allowedJid) := fun h => hText h.1
    rw [if_neg hc, respond_other conn handler info message hInfo hText,
      if_pos ((isInList_eq_neg_one _ _).mpr hNoReply)]

theorem C6_not_a_reply_witness :
    HandleTextMessage exampleNow exampleConn (eventWith ["Alice"])
        (inbound "m2" "+1" "m0" (some bobJid))
      = (if (inbound "m2" "+1" "m0" (some bobJid)).Text = "_?_" ∧
            ¬ (inbound "m2" "+1" "m0" (some bobJid)).Info.Timestamp
              < (eventWith ["Alice"]).StartTime ∧
            (inbound "m2" "+1" "m0" (some bobJid)).Info.RemoteJid = allowedJid then
          some ({ eventWith ["Alice"] with
                  Info := some { Going := true, Participants := ["Alice"],
                                 Time := exampleEventTime,
                                 ReplyMessages := ["m1"] ++ ["m2"] } },
            [outgoing allowedJid
              ("[Waaier]\n\n🕒 " ++ time.FormatMon1504 exampleEventTime ++
                "\nPeople that are going:\n" ++ strings.Join ["Alice"] ", ")])
        else some (eventWith ["Alice"], [])) :=
  C6_not_a_reply exampleNow exampleConn (eventWith ["Alice"])
    { Going := true, Participants := ["Alice"], Time := exampleEventTime,
      ReplyMessages := ["m1"] }
    (inbound "m2" "+1" "m0" (some bobJid)) rfl (by decide) (by decide)

/-- C7 (expiry). When the event time is before `now`, any message in the
allowed conversation that is not older than the start of the bot leaves the
state with no event and sends nothing; a `_?_` does not create a new event in
that turn. -/
theorem C7_expiry (now : time.Time) (conn : Conn) (handler : WaaierHandler)
    (info : waaierInfo) (message : TextMessage)
    (hInfo : handler.Info = some info) (hExpired : info.Time < now)
    (hTs : ¬ message.Info.Timestamp < handler.StartTime)
    (hJid : message.Info.RemoteJid = allowedJid) :
    HandleTextMessage now conn handler message = some ({ handler with Info := none }, []) := by
  simp only [HandleTextMessage, hTs, hJid, hInfo, if_false, ne_eq, not_true_eq_false,
    Option.isNone_some, Bool.false_eq_true, false_and, time.Before, decide_eq_true_eq,
    hExpired, if_true]

theorem C7_expiry_witness :
    HandleTextMessage exampleLate exampleConn (eventWith ["Alice"])
        (inbound "m2" "_?_" "" (some bobJid))
      = some ({ eventWith ["Alice"] with Info := none }, []) :=
  C7_expiry exampleLate exampleConn (eventWith ["Alice"])
    { Going := true, Participants := ["Alice"], Time := exampleEventTime,
      ReplyMessages := ["m1"] }
    (inbound "m2" "_?_" "" (some bobJid)) rfl (by decide) (by decide) rfl

/-- C8 (AddSelf). For an active, not expired event and a reply, in the allowed
conversation, to an acknowledged id, whose text starts with `+1` and whose
sender resolves to `n`: when `n` is already an attendee nothing changes and
nothing is sent; otherwise `n` is appended at the end of the attendee list,
time and acknowledged ids stay, and exactly one message is sent. -/
theorem C8_add_self (now : time.Time) (conn : Conn) (handler : WaaierHandler)
    (info : waaierInfo) (message : TextMessage) (n : String)
    (hInfo : handler.Info = some info) (hFresh : ¬ info.Time < now)
    (hTs : ¬ message.Info.Timestamp < handler.StartTime)
    (hJid : message.Info.RemoteJid = allowedJid)
    (hReply : message.ContextInfo.QuotedMessageID ∈ info.ReplyMessages)
    (hText : gostring.HasPrefix message.Text "+1" = true)
    (hName : senderName conn message = some n) :
    HandleTextMessage now conn handler message =
      if n ∈ info.Participants then some (handler, [])
      else
        some ({ handler with
                Info := some { Going := info.Going,
                               Participants := info.Participants ++ [n],
                               Time := info.Time,
                               ReplyMessages := info.ReplyMessages } },
          [outgoing message.Info.RemoteJid
            ("[Waaier]\n\nYou are added to the list!\n\n🕒 " ++ time.FormatMon1504 info.Time ++
              "\nPeople that are going:\n" ++ strings.Join (info.Participants ++ [n]) ", ")]) := by
  have hne : message.Text ≠ "_?_" := by
    intro e
    rw [e, trigger_no_command.1] at hText
    exact Bool.false_ne_true hText
  have hr : ¬ isInList info.ReplyMessages message.ContextInfo.QuotedMessageID = -1 := by
    rw [isInList_eq_neg_one]
    exact fun h => h hReply
  rw [HandleTextMessage_active now conn handler info message hInfo hTs hJid hFresh,
    respond_other conn handler info message hInfo hne, if_neg hr,
    commands_add conn handler message hText,
    addParticipant_resolved conn handler info message true n hName hInfo]
  rfl

theorem C8_add_self_witness :
    HandleTextMessage exampleNow exampleConn (eventWith ["Alice"])
        (inbound "m2" "+1" "m1" (some bobJid))
      = (if "Bob" ∈ ["Alice"] then some (eventWith ["Alice"], [])
        else
          some ({ eventWith ["Alice"] with
                  Info := some { Going := true, Participants := ["Alice"] ++ ["Bob"],
                                 Time := exampleEventTime, ReplyMessages := ["m1"] } },
            [outgoing allowedJid
              ("[Waaier]\n\nYou are added to the list!\n\n🕒 " ++
                time.FormatMon1504 exampleEventTime ++
                "\nPeople that are going:\n" ++ strings.Join (["Alice"] ++ ["Bob"]) ", ")])) :=
  C8_add_self exampleNow exampleConn (eventWith ["Alice"])
    { Going := true, Participants := ["Alice"], Time := exampleEventTime,
      ReplyMessages := ["m1"] }
    (inbound "m2" "+1" "m1" (some bobJid)) "Bob" rfl (by decide) (by decide) rfl (by decide)
    (by decide) (by decide)

/-- C9 (cancellation). For an active, not expired event whose attendee list is
exactly `[n]`, a reply, in the allowed conversation, to an acknowledged id,
whose text starts with `-1` and whose sender resolves to `n`, destroys the
event and sends exactly one message, the cancellation text. -/
theorem C9_cancellation (now : time.Time) (conn : Conn) (handler : WaaierHandler)
    (info : waaierInfo) (message : TextMessage) (n : String)
    (hInfo : handler.Info = some info) (hFresh : ¬ info.Time < now)
    (hTs : ¬ message.Info.Timestamp < handler.StartTime)
    (hJid : message.Info.RemoteJid = allowedJid)
    (hReply : message.ContextInfo.QuotedMessageID ∈ info.ReplyMessages)
    (hText : gostring.HasPrefix message.Text "-1" = true)
    (hName : senderName conn message = some n)
    (hSole : info.Participants = [n]) :
    HandleTextMessage now conn handler message =
      some ({ handler with Info := none },
        [outgoing message.Info.RemoteJid
          "[Waaier]\n\nNobody is going.\n🦀 Waaier is cancelled. 🦀"]) := by
  have hne : message.Text ≠ "_?_" := by
    intro e
    rw [e, trigger_no_command.2] at hText
    exact Bool.false_ne_true hText
  have hr : ¬ isInList info.ReplyMessages message.ContextInfo.QuotedMessageID = -1 := by
    rw [isInList_eq_neg_one]
    exact fun h => h hReply
  rw [HandleTextMessage_active now conn handler info message hInfo hTs hJid hFresh,
    respond_other conn handler info message hInfo hne, if_neg hr,
    commands_remove conn handler message hText,
    removeParticipant_sole conn handler info message true n hName hInfo hSole]
  rfl

theorem C9_cancellation_witness :
    HandleTextMessage exampleNow exampleConn (eventWith ["Alice"])
        (inbound "m2" "-1" "m1" (some aliceJid))
      = some ({ eventWith ["Alice"] with Info := none },
          [outgoing allowedJid "[Waaier]\n\nNobody is going.\n🦀 Waaier is cancelled. 🦀"]) :=
  C9_cancellation exampleNow exampleConn (eventWith ["Alice"])
    { Going := true, Participants := ["Alice"], Time := exampleEventTime,
      ReplyMessages := ["m1"] }
    (inbound "m2" "-1" "m1" (some aliceJid)) "Alice" rfl (by decide) (by decide) rfl (by decide)
    (by decide) (by decide) rfl

/-- C10, as stated, fails: when Alice leaves the event of Alice, Bob and
Carol, the list becomes Carol, Bob, not Bob, Carol. -/
theorem C10_counterexample :
    HandleTextMessage exampleNow exampleConn (eventWith ["Alice", "Bob", "Carol"])
        (inbound "m2" "-1" "m1" (some aliceJid))
      = some (eventWith ["Carol", "Bob"],
          [outgoing allowedJid
            "[Waaier]\n\nYou are removed from the list!\n\n🕒 Sat 17:45\nPeople that are going:\nCarol, Bob"]) ∧
    ["Alice", "Bob", "Carol"].erase "Alice" = ["Bob", "Carol"] ∧
    eventWith ["Carol", "Bob"] ≠ eventWith ["Bob", "Carol"] := by
  decide

/-- C10 (amended). For an active, not expired event with at least two
attendees, after a RemoveSelf by the attendee `n` the new attendee list is the
old one with the slot of `n` taken over by the last attendee and the last slot
dropped: it is one shorter and a permutation of the old list with `n` erased,
and the one message sent renders this new list in its stored order. -/
theorem C10_remove_self (now : time.Time) (conn : Conn) (handler : WaaierHandler)
    (info : waaierInfo) (message : TextMessage) (n : String)
    (hInfo : handler.Info = some info) (hFresh : ¬ info.Time < now)
    (hTs : ¬ message.Info.Timestamp < handler.StartTime)
    (hJid : message.Info.RemoteJid = allowedJid)
    (hReply : message.ContextInfo.QuotedMessageID ∈ info.ReplyMessages)
    (hText : gostring.HasPrefix message.Text "-1" = true)
    (hName : senderName conn message = some n)
    (hMem : n ∈ info.Participants) (hTwo : 2 ≤ info.Participants.length) :
    HandleTextMessage now conn handler message =
      some ({ handler with
              Info := some { Going := info.Going,
                             Participants :=
                               swapRemove info.Participants (info.Participants.indexOf n),
                             Time := info.Time,
                             ReplyMessages := info.ReplyMessages } },
        [outgoing message.Info.RemoteJid
          ("[Waaier]\n\nYou are removed from the list!\n\n🕒 " ++
            time.FormatMon1504 info.Time ++ "\nPeople that are going:\n" ++
            strings.Join (swapRemove info.Participants (info.Participants.indexOf n)) ", ")]) ∧
    (swapRemove info.Participants (info.Participants.indexOf n)).Perm
      (info.Participants.erase n) ∧
    (swapRemove info.Participants (info.Participants.indexOf n)).length + 1
      = info.Participants.length := by
  have hne : message.Text ≠ "_?_" := by
    intro e
    rw [e, trigger_no_command.2] at hText
    exact Bool.false_ne_true hText
  have hr : ¬ isInList info.ReplyMessages message.ContextInfo.QuotedMessageID = -1 := by
    rw [isInList_eq_neg_one]
    exact fun h => h hReply
  have hl : info.Participants.length ≠ 1 := by omega
  obtain ⟨-, hperm, hlen⟩ := removeFromList_isInList info.Participants n hMem
  refine ⟨?_, hperm, hlen⟩
  rw [HandleTextMessage_active now conn handler info message hInfo hTs hJid hFresh,
    respond_other conn handler info message hInfo hne, if_neg hr,
    commands_remove conn handler message hText,
    removeParticipant_member conn handler info message true n hName hInfo hMem hl]
  rfl

theorem C10_remove_self_witness :
    swapRemove ["Alice", "Bob", "Carol"] (["Alice", "Bob", "Carol"].indexOf "Alice")
      = ["Carol", "Bob"] ∧
    (HandleTextMessage exampleNow exampleConn (eventWith ["Alice", "Bob", "Carol"])
        (inbound "m2" "-1" "m1" (some aliceJid))
      = some ({ eventWith ["Alice", "Bob", "Carol"] with
                Info := some { Going := true,
                               Participants :=
                                 swapRemove ["Alice", "Bob", "Carol"]
                                   (["Alice", "Bob", "Carol"].indexOf "Alice"),
                               Time := exampleEventTime,
                               ReplyMessages := ["m1"] } },
          [outgoing allowedJid
            ("[Waaier]\n\nYou are removed from the list!\n\n🕒 " ++
              time.FormatMon1504 exampleEventTime ++ "\nPeople that are going:\n" ++
              strings.Join (swapRemove ["Alice", "Bob", "Carol"]
                (["Alice", "Bob", "Carol"].indexOf "Alice")) ", ")]) ∧
    (swapRemove ["Alice", "Bob", "Carol"] (["Alice", "Bob", "Carol"].indexOf "Alice")).Perm
      (["Alice", "Bob", "Carol"].erase "Alice") ∧
    (swapRemove ["Alice", "Bob", "Carol"] (["Alice", "Bob", "Carol"].indexOf "Alice")).length + 1
      = ["Alice", "Bob", "Carol"].length) :=
  ⟨by decide,
   C10_remove_self exampleNow exampleConn (eventWith ["Alice", "Bob", "Carol"])
     { Going := true, Participants := ["Alice", "Bob", "Carol"], Time := exampleEventTime,
       ReplyMessages := ["m1"] }
     (inbound "m2" "-1" "m1" (some aliceJid)) "Alice" rfl (by decide) (by decide) rfl
     (by decide) (by decide) (by decide) (by decide) (by decide)⟩

end handlers

namespace handlers

open whatsapp

/-- A reply of one byte during an active event panics before its text is
looked at as a time. -/
theorem oneByte_reply_panics :
    HandleTextMessage exampleNow exampleConn (eventWith ["Alice"])
      (inbound "m2" "7" "m1" (some bobJid)) = none := by
  decide

/-- C12, as stated, fails: a reply `_?_` is neither an add, remove or status
command nor a time, yet during an active event its id is recorded and the
status is sent. -/
theorem C12_counterexample :
    fmt.Sscanf_d_colon_d "_?_" = none ∧
    gostring.HasPrefix "_?_" "+1" = false ∧ gostring.HasPrefix "_?_" "-1" = false ∧
    gostring.HasPrefix "_?_" "?" = false ∧
    HandleTextMessage exampleNow exampleConn (eventWith ["Alice"])
        (inbound "m2" "_?_" "m1" (some bobJid))
      = some ({ Info := some { Going := true, Participants := ["Alice"],
                               Time := exampleEventTime, ReplyMessages := ["m1", "m2"] },
                StartTime := 1597500000 },
          [outgoing allowedJid "[Waaier]\n\n🕒 Sat 17:45\nPeople that are going:\nAlice"]) := by
  decide

/-- C12 (amended). For an active, not expired event and a reply, in the
allowed conversation, to an acknowledged id, whose text has at least two
bytes, is not `_?_`, starts with none of `+1`, `-1`, `?`, and either does not
scan as `%d:%d` or scans with hours outside 0..23 or minutes outside 0..59:
the state is unchanged and nothing is sent. -/
theorem C12_malformed_time (now : time.Time) (conn : Conn) (handler : WaaierHandler)
    (info : waaierInfo) (message : TextMessage)
    (hInfo : handler.Info = some info) (hFresh : ¬ info.Time < now)
    (hTs : ¬ message.Info.Timestamp < handler.StartTime)
    (hJid : message.Info.RemoteJid = allowedJid)
    (hReply : message.ContextInfo.QuotedMessageID ∈ info.ReplyMessages)
    (hLen : 2 ≤ gostring.len message.Text)
    (hText : message.Text ≠ "_?_")
    (hAdd : gostring.HasPrefix message.Text "+1" = false)
    (hRem : gostring.HasPrefix message.Text "-1" = false)
    (hStatus : gostring.HasPrefix message.Text "?" = false)
    (hBad : ∀ h m, fmt.Sscanf_d_colon_d message.Text = some (h, m) →
      h < 0 ∨ 23 < h ∨ m < 0 ∨ 59 < m) :
    HandleTextMessage now conn handler message = some (handler, []) := by
  have hr : ¬ isInList info.ReplyMessages message.ContextInfo.QuotedMessageID = -1 := by
    rw [isInList_eq_neg_one]
    exact fun hn => hn hReply
  rw [HandleTextMessage_active now conn handler info message hInfo hTs hJid hFresh,
    respond_other conn handler info message hInfo hText, if_neg hr,
    commands_time conn handler message hLen hAdd hRem hStatus]
  unfold changeWaaierTime
  cases hs : fmt.Sscanf_d_colon_d message.Text with
  | none => rfl
  | some hm =>
    obtain ⟨h, m⟩ := hm
    have hb := hBad h m hs
    have hrange : h > 23 ∨ h < 0 ∨ m > 59 ∨ m < 0 := by omega
    simp only [hrange, if_true]

theorem C12_malformed_time_witness :
    fmt.Sscanf_d_colon_d "9:75" = some (9, 75) ∧
    HandleTextMessage exampleNow exampleConn (eventWith ["Alice"])
        (inbound "m2" "9:75" "m1" (some bobJid))
      = some (eventWith ["Alice"], []) :=
  ⟨by decide,
   C12_malformed_time exampleNow exampleConn (eventWith ["Alice"])
     { Going := true, Participants := ["Alice"], Time := exampleEventTime,
       ReplyMessages := ["m1"] }
     (inbound "m2" "9:75" "m1" (some bobJid)) rfl (by decide) (by decide) rfl
     (by decide) (by decide) (by decide) (by decide) (by decide) (by decide)
     (fun h m e => by
       have e2 : fmt.Sscanf_d_colon_d "9:75" = some (9, 75) := by decide
       have e3 : (9, 75) = (h, m) := Option.some.inj (e2.symm.trans e)
       simp only [Prod.mk.injEq] at e3
       omega)⟩

/-- C13 (pre-start messages). A message whose timestamp is less than the
start time of the bot changes no state and sends nothing, whatever its text,
conversation, sender or quoted id, with or without an event. -/
theorem C13_before_start (now : time.Time) (conn : Conn) (handler : WaaierHandler)
    (message : TextMessage) (hTs : message.Info.Timestamp < handler.StartTime) :
    HandleTextMessage now conn handler message = some (handler, []) := by
  simp only [HandleTextMessage, hTs, if_true]

theorem C13_before_start_witness :
    HandleTextMessage exampleNow exampleConn noEvent
        { Info := { Id := "m0", RemoteJid := allowedJid, Timestamp := 1597499999,
                    Participant := some aliceJid },
          Text := "_?_", ContextInfo := { QuotedMessageID := "" } }
      = some (noEvent, []) :=
  C13_before_start exampleNow exampleConn noEvent
    { Info := { Id := "m0", RemoteJid := allowedJid, Timestamp := 1597499999,
                Participant := some aliceJid },
      Text := "_?_", ContextInfo := { QuotedMessageID := "" } }
    (by decide)

/-- C14 (single allowed conversation). A message from a conversation other
than the allowed one changes no state and sends nothing, whatever its text. -/
theorem C14_other_conversation (now : time.Time) (conn : Conn) (handler : WaaierHandler)
    (message : TextMessage) (hJid : message.Info.RemoteJid ≠ allowedJid) :
    HandleTextMessage now conn handler message = some (handler, []) := by
  by_cases hTs : message.Info.Timestamp < handler.StartTime
  · simp only [HandleTextMessage, hTs, if_true]
  · simp only [HandleTextMessage, hTs, hJid, if_false, ne_eq, not_false_eq_true, if_true]

theorem C14_other_conversation_witness :
    HandleTextMessage exampleNow exampleConn noEvent
        { Info := { Id := "m1", RemoteJid := "31600000009-1500000000@g.us",
                    Timestamp := 1597505400, Participant := some aliceJid },
          Text := "_?_", ContextInfo := { QuotedMessageID := "" } }
      = some (noEvent, []) :=
  C14_other_conversation exampleNow exampleConn noEvent
    { Info := { Id := "m1", RemoteJid := "31600000009-1500000000@g.us",
                Timestamp := 1597505400, Participant := some aliceJid },
      Text := "_?_", ContextInfo := { QuotedMessageID := "" } }
    (by decide)

/-- C15 (notification count). A handled message sends at most one message, to
the conversation of the inbound message, and sends exactly one whenever it
creates an event, changes the attendee list, cancels a not expired event or
changes the time; on a text of at least two bytes the handler does return. -/
theorem C15_notification_count (now : time.Time) (conn : Conn) (handler : WaaierHandler)
    (message : TextMessage) :
    (2 ≤ gostring.len message.Text →
      ∃ r, HandleTextMessage now conn handler message = some r) ∧
    ∀ r, HandleTextMessage now conn handler message = some r →
      r.2.length ≤ 1 ∧
      (∀ o ∈ r.2, o.Info.RemoteJid = message.Info.RemoteJid) ∧
      (handler.Info = none → r.1.Info ≠ none → r.2.length = 1) ∧
      (∀ info info1, handler.Info = some info → r.1.Info = some info1 →
        info1.Participants ≠ info.Participants → r.2.length = 1) ∧
      (∀ info, handler.Info = some info → ¬ info.Time < now → r.1.Info = none →
        r.2.length = 1) ∧
      (∀ info info1, handler.Info = some info → r.1.Info = some info1 →
        info1.Time ≠ info.Time → r.2.length = 1) := by
  refine ⟨HandleTextMessage_total now conn handler message, ?_⟩
  intro r h
  rcases HandleTextMessage_shape now conn handler message r h with
    e | ⟨info0, hi0, hexp, e⟩ | ⟨text, e1, -, e3⟩
  · subst e
    refine ⟨by simp, by simp, ?_, ?_, ?_, ?_⟩
    · intro h0 h1
      exact absurd h0 h1
    · intro info info1 h0 h1 hne
      rw [h0, Option.some.injEq] at h1
      subst h1
      exact absurd rfl hne
    · intro info h0 _ h1
      rw [h0] at h1
      exact Option.noConfusion h1
    · intro info info1 h0 h1 hne
      rw [h0, Option.some.injEq] at h1
      subst h1
      exact absurd rfl hne
  · subst e
    refine ⟨by simp, by simp, ?_, ?_, ?_, ?_⟩
    · intro h0
      rw [hi0] at h0
      exact Option.noConfusion h0
    · intro info info1 _ h1
      exact Option.noConfusion h1
    · intro info h0 hfresh
      rw [hi0, Option.some.injEq] at h0
      subst h0
      exact absurd hexp hfresh
    · intro info info1 _ h1
      exact Option.noConfusion h1
  · have hlen : r.2.length = 1 := by rw [e1]; rfl
    refine ⟨by omega, ?_, fun _ _ => hlen, fun _ _ _ _ _ => hlen, fun _ _ _ _ => hlen,
      fun _ _ _ _ _ => hlen⟩
    intro o ho
    rw [e1, List.mem_singleton] at ho
    subst ho
    rfl

theorem C15_notification_count_witness :
    HandleTextMessage exampleNow exampleConn (eventWith ["Alice"])
        (inbound "m2" "+1" "m1" (some bobJid))
      = some (eventWith ["Alice", "Bob"],
          [outgoing allowedJid
            "[Waaier]\n\nYou are added to the list!\n\n🕒 Sat 17:45\nPeople that are going:\nAlice, Bob"]) ∧
    [outgoing allowedJid
      "[Waaier]\n\nYou are added to the list!\n\n🕒 Sat 17:45\nPeople that are going:\nAlice, Bob"].length
      = 1 :=
  ⟨by decide,
   ((C15_notification_count exampleNow exampleConn (eventWith ["Alice"])
      (inbound "m2" "+1" "m1" (some bobJid))).2
      (eventWith ["Alice", "Bob"],
        [outgoing allowedJid
          "[Waaier]\n\nYou are added to the list!\n\n🕒 Sat 17:45\nPeople that are going:\nAlice, Bob"])
      (by decide)).2.2.2.1
      { Going := true, Participants := ["Alice"], Time := exampleEventTime,
        ReplyMessages := ["m1"] }
      { Going := true, Participants := ["Alice", "Bob"], Time := exampleEventTime,
        ReplyMessages := ["m1"] }
      rfl rfl (by decide)⟩

/-- C16 (create then remove-last). From no event, a `_?_` from a sender that
resolves to `n`, followed by a reply to that message whose text starts with
`-1` from a sender that resolves to `n` (both in the allowed conversation and
not older than the start of the bot), ends with no event, whatever the two
clock readings are. -/
theorem C16_create_then_leave (now1 now2 : time.Time) (conn1 conn2 : Conn)
    (handler : WaaierHandler) (m1 m2 : TextMessage) (n : String)
    (hInfo : handler.Info = none)
    (hText1 : m1.Text = "_?_") (hJid1 : m1.Info.RemoteJid = allowedJid)
    (hTs1 : ¬ m1.Info.Timestamp < handler.StartTime)
    (hName1 : senderName conn1 m1 = some n)
    (hText2 : gostring.HasPrefix m2.Text "-1" = true) (hJid2 : m2.Info.RemoteJid = allowedJid)
    (hTs2 : ¬ m2.Info.Timestamp < handler.StartTime)
    (hName2 : senderName conn2 m2 = some n)
    (hReply : m2.ContextInfo.QuotedMessageID = m1.Info.Id) :
    ∃ final,
      handleAll handler
        [{ now := now1, conn := conn1, message := m1 },
         { now := now2, conn := conn2, message := m2 }] = some final ∧
      final.Info = none := by
  have step1 : HandleTextMessage now1 conn1 handler m1 =
      some ({ handler with
              Info := some { Going := true, Participants := [n],
                             Time := defaultEventTime now1,
                             ReplyMessages := [m1.Info.Id] } },
        [outgoing m1.Info.RemoteJid
          (createdText { Going := true, Participants := [n], Time := defaultEventTime now1,
                         ReplyMessages := [m1.Info.Id] })]) := by
    simp only [HandleTextMessage, hTs1, hJid1, hInfo, hText1, if_false, ne_eq,
      not_true_eq_false, Option.isNone_none, and_self, if_true]
    rw [createWaaierEvent_eq, hName1]
    simp only [Option.toList, hJid1]
  have step2 : ∃ sent,
      HandleTextMessage now2 conn2
        { handler with
          Info := some { Going := true, Participants := [n],
                         Time := defaultEventTime now1,
                         ReplyMessages := [m1.Info.Id] } } m2
        = some ({ handler with Info := none }, sent) := by
    by_cases hExp : defaultEventTime now1 < now2
    · refine ⟨[], ?_⟩
      simp only [HandleTextMessage, hTs2, hJid2, if_false, ne_eq, not_true_eq_false,
        Option.isNone_some, Bool.false_eq_true, false_and, time.Before, decide_eq_true_eq,
        hExp, if_true]
    · have hne : m2.Text ≠ "_?_" := by
        intro e
        rw [e, trigger_no_command.2] at hText2
        exact Bool.false_ne_true hText2
      have hr : ¬ isInList [m1.Info.Id] m2.ContextInfo.QuotedMessageID = -1 := by
        rw [isInList_eq_neg_one, hReply]
        simp
      refine ⟨[outgoing m2.Info.RemoteJid cancelledText], ?_⟩
      rw [HandleTextMessage_active now2 conn2
          { handler with
            Info := some { Going := true, Participants := [n],
                           Time := defaultEventTime now1,
                           ReplyMessages := [m1.Info.Id] } }
          { Going := true, Participants := [n], Time := defaultEventTime now1,
            ReplyMessages := [m1.Info.Id] } m2 rfl hTs2 hJid2 hExp,
        respond_other conn2 _ _ m2 rfl hne, if_neg hr, commands_remove conn2 _ m2 hText2,
        removeParticipant_sole conn2 _ _ m2 true n hName2 rfl rfl]
      rfl
  obtain ⟨sent, hs2⟩ := step2
  refine ⟨{ handler with Info := none }, ?_, rfl⟩
  simp only [handleAll, step1, hs2]

theorem C16_create_then_leave_witness :
    ∃ final, handleAll noEvent createThenLeave = some final ∧ final.Info = none :=
  C16_create_then_leave exampleNow exampleLate exampleConn exampleConn noEvent
    (inbound "m1" "_?_" "" (some aliceJid)) (inbound "m2" "-1" "m1" (some aliceJid)) "Alice"
    rfl rfl rfl (by decide) (by decide) (by decide) rfl (by decide) (by decide) rfl

/-- What the `?` branch does when it is reached: for an active, not expired
event, a reply, in the allowed conversation, to an acknowledged id, whose text
has at least two bytes and starts with `?`, leaves the whole state unchanged
and sends exactly one status message that renders the time and the attendees
joined by `, `. -/
theorem statusReply_twoBytes (now : time.Time) (conn : Conn) (handler : WaaierHandler)
    (info : waaierInfo) (message : TextMessage)
    (hInfo : handler.Info = some info) (hFresh : ¬ info.Time < now)
    (hTs : ¬ message.Info.Timestamp < handler.StartTime)
    (hJid : message.Info.RemoteJid = allowedJid)
    (hReply : message.ContextInfo.QuotedMessageID ∈ info.ReplyMessages)
    (hLen : 2 ≤ gostring.len message.Text)
    (hStatus : gostring.HasPrefix message.Text "?" = true) :
    HandleTextMessage now conn handler message =
      some (handler,
        [outgoing message.Info.RemoteJid
          ("[Waaier]\n\n🕒 " ++ time.FormatMon1504 info.Time ++ "\nPeople that are going:\n" ++
            strings.Join info.Participants ", ")]) := by
  have hne : message.Text ≠ "_?_" := by
    intro e
    have e0 : gostring.HasPrefix "_?_" "?" = false := by decide
    rw [e, e0] at hStatus
    exact Bool.false_ne_true hStatus
  have hr : ¬ isInList info.ReplyMessages message.ContextInfo.QuotedMessageID = -1 := by
    rw [isInList_eq_neg_one]
    exact fun hn => hn hReply
  rw [HandleTextMessage_active now conn handler info message hInfo hTs hJid hFresh,
    respond_other conn handler info message hInfo hne, if_neg hr,
    commands_status conn handler message hLen hStatus]
  simp only [displayWaaierInfo, hInfo, infoText]

/-- C17 fails on the code: during an active, not expired event the status
query, the one-character text `?` sent as a reply to an acknowledged id, makes
`message.Text[:2]` panic, so no id is recorded and no status is sent. -/
theorem C17_status_query_panics :
    gostring.len "?" = 1 ∧
    time.Before exampleEventTime exampleNow = false ∧
    "m1" ∈ ["m1"] ∧
    HandleTextMessage exampleNow exampleConn (eventWith ["Alice"])
        (inbound "m2" "?" "m1" (some bobJid)) = none := by
  decide

/-- C18 (RemoveSelf by a non-attendee). When the sender resolves to a name that
is not in the attendee list, `removeParticipant` changes nothing and sends
nothing, for every event and however many attendees it has; so does the
handler for a reply to an acknowledged id whose text starts with `-1`, in the
allowed conversation, while the event is not expired. -/
theorem C18_remove_non_attendee (conn : Conn) (handler : WaaierHandler) (info : waaierInfo)
    (message : TextMessage) (n : String)
    (hInfo : handler.Info = some info) (hName : senderName conn message = some n)
    (hAbsent : n ∉ info.Participants) :
    (∀ autoReply, removeParticipant conn handler message autoReply = some (handler, [])) ∧
    (∀ now : time.Time, ¬ info.Time < now →
      ¬ message.Info.Timestamp < handler.StartTime →
      message.Info.RemoteJid = allowedJid →
      message.ContextInfo.QuotedMessageID ∈ info.ReplyMessages →
      gostring.HasPrefix message.Text "-1" = true →
      HandleTextMessage now conn handler message = some (handler, [])) := by
  refine ⟨fun autoReply =>
    removeParticipant_absent conn handler info message autoReply n hName hInfo hAbsent, ?_⟩
  intro now hFresh hTs hJid hReply hText
  have hne : message.Text ≠ "_?_" := by
    intro e
    rw [e, trigger_no_command.2] at hText
    exact Bool.false_ne_true hText
  have hr : ¬ isInList info.ReplyMessages message.ContextInfo.QuotedMessageID = -1 := by
    rw [isInList_eq_neg_one]
    exact fun hn => hn hReply
  rw [HandleTextMessage_active now conn handler info message hInfo hTs hJid hFresh,
    respond_other conn handler info message hInfo hne, if_neg hr,
    commands_remove conn handler message hText,
    removeParticipant_absent conn handler info message true n hName hInfo hAbsent]

theorem C18_remove_non_attendee_witness :
    senderName exampleConn (inbound "m2" "-1" "m1" (some bobJid)) = some "Bob" ∧
    HandleTextMessage exampleNow exampleConn (eventWith ["Alice"])
        (inbound "m2" "-1" "m1" (some bobJid))
      = some (eventWith ["Alice"], []) :=
  ⟨by decide,
   (C18_remove_non_attendee exampleConn (eventWith ["Alice"])
      { Going := true, Participants := ["Alice"], Time := exampleEventTime,
        ReplyMessages := ["m1"] }
      (inbound "m2" "-1" "m1" (some bobJid)) "Bob" rfl (by decide) (by decide)).2
      exampleNow (by decide) (by decide) rfl (by decide) (by decide)⟩

/-- C19 (acknowledged ids only grow). For every handled message that leaves
the event in place, the old list of acknowledged ids is a prefix of the new
one; hence over any sequence of messages during which the event stays in
place, the list at the start is a prefix of the list at the end and every id
in it (such as the id of the creation message) is still acknowledged. -/
theorem C19_ack_ids_grow :
    (∀ (now : time.Time) (conn : Conn) (handler : WaaierHandler) (message : TextMessage)
        (r : WaaierHandler × List TextMessage) (info info1 : waaierInfo),
      HandleTextMessage now conn handler message = some r →
      handler.Info = some info → r.1.Info = some info1 →
      ∃ extra, info1.ReplyMessages = info.ReplyMessages ++ extra) ∧
    (∀ (deliveries : List Delivery) (handler final : WaaierHandler) (info infoF : waaierInfo),
      handler.Info = some info →
      handleAll handler deliveries = some final → final.Info = some infoF →
      (∀ k mid, handleAll handler (deliveries.take k) = some mid → mid.Info ≠ none) →
      (∃ extra, infoF.ReplyMessages = info.ReplyMessages ++ extra) ∧
      ∀ id ∈ info.ReplyMessages, id ∈ infoF.ReplyMessages) := by
  refine ⟨fun now conn handler message r info info1 h hInfo hStill =>
    HandleTextMessage_ackIds now conn handler message r info info1 h hInfo hStill, ?_⟩
  intro deliveries handler final info infoF hInfo hRun hFinal hAlive
  obtain ⟨extra, he⟩ :=
    handleAll_ackIds deliveries handler info final infoF hInfo hRun hFinal hAlive
  refine ⟨⟨extra, he⟩, ?_⟩
  intro id hid
  rw [he]
  exact List.mem_append_left extra hid

theorem C19_ack_ids_grow_witness :
    HandleTextMessage exampleNow exampleConn (eventWith ["Alice"])
        (inbound "m2" "_?_" "" (some bobJid))
      = some ({ Info := some { Going := true, Participants := ["Alice"],
                               Time := exampleEventTime, ReplyMessages := ["m1", "m2"] },
                StartTime := 1597500000 },
          [outgoing allowedJid "[Waaier]\n\n🕒 Sat 17:45\nPeople that are going:\nAlice"]) ∧
    ∃ extra, ["m1", "m2"] = ["m1"] ++ extra :=
  ⟨by decide,
   C19_ack_ids_grow.1 exampleNow exampleConn (eventWith ["Alice"])
     (inbound "m2" "_?_" "" (some bobJid))
     ({ Info := some { Going := true, Participants := ["Alice"],
                       Time := exampleEventTime, ReplyMessages := ["m1", "m2"] },
        StartTime := 1597500000 },
      [outgoing allowedJid "[Waaier]\n\n🕒 Sat 17:45\nPeople that are going:\nAlice"])
     { Going := true, Participants := ["Alice"], Time := exampleEventTime,
       ReplyMessages := ["m1"] }
     { Going := true, Participants := ["Alice"], Time := exampleEventTime,
       ReplyMessages := ["m1", "m2"] }
     (by decide) rfl rfl⟩

/-- C20 (list helpers). For every list and item, `isInList` returns -1 exactly
when the item does not occur, and otherwise the index of its first occurrence;
for every list and valid index `i` (so the list is not empty) `removeFromList`
returns a list one shorter that is a permutation of the list with the element
at `i` removed. -/
theorem C20_list_helpers (list : List String) (item : String) :
    (isInList list item = -1 ↔ item ∉ list) ∧
    (item ∈ list →
      ∃ k : Nat, isInList list item = k ∧ list[k]? = some item ∧
        ∀ j, j < k → list[j]? ≠ some item) ∧
    (∀ i : Nat, i < list.length →
      ∃ r, removeFromList list i = some r ∧ r.length + 1 = list.length ∧
        r.Perm (list.eraseIdx i)) :=
  ⟨isInList_eq_neg_one list item, isInList_first list item,
   fun i hi => removeFromList_at list i hi⟩

theorem C20_list_helpers_witness :
    isInList ["Alice", "Bob", "Carol", "Bob"] "Bob" = 1 ∧
    removeFromList ["Alice", "Bob", "Carol", "Bob"] 0 = some ["Bob", "Bob", "Carol"] ∧
    (isInList [] "Bob" = -1 ↔ "Bob" ∉ ([] : List String)) ∧
    ∃ r, removeFromList ["Alice", "Bob", "Carol", "Bob"] (0 : Nat) = some r ∧
      r.length + 1 = ["Alice", "Bob", "Carol", "Bob"].length ∧
      r.Perm (["Alice", "Bob", "Carol", "Bob"].eraseIdx 0) :=
  ⟨by decide, by decide, (C20_list_helpers [] "Bob").1,
   (C20_list_helpers ["Alice", "Bob", "Carol", "Bob"] "Bob").2.2 0 (by decide)⟩

end handlers
